import Mathlib

/-!
Shallow embedding of `setup.py` from danclab/DANC_spm_python.

The script is an installation orchestrator (class `CustomInstall`): it
assembles the SPM standalone package from split `.part` archives, installs
it, downloads the MATLAB runtime appropriate to the host OS, extracts it,
invokes its native silent installer, and writes Conda activation hooks.

The embedding models the filesystem (existing files, directories,
permission modes, written script contents, current directory) together
with a trace of externally visible events.  External processes
(`subprocess.check_call`) are modelled by an oracle `ora : List String →
Bool` giving each command's success; a failing command raises
`CalledProcessError`, modelled as `Err.calledProcess`.  Filesystem
primitives are total state updates; the explicit `os.path.exists` /
`os.path.isdir` checks of the source are modelled faithfully.
-/

namespace DancSpm

/-- Substring test on character lists: `needle` occurs somewhere in the list. -/
def listContainsSub (needle : List Char) : List Char → Bool
  | [] => needle.isEmpty
  | c :: rest => needle.isPrefixOf (c :: rest) || listContainsSub needle rest

/-- Python `needle in hay` substring containment on strings. -/
def strContains (needle hay : String) : Bool :=
  listContainsSub needle.data hay.data

/-- Python `str.startswith` / prefix test. -/
def strStartsWith (a pre : String) : Bool :=
  pre.data.isPrefixOf a.data

/-- Python `str.endswith` / suffix test (via reversed prefix test). -/
def strEndsWith (a suffix : String) : Bool :=
  suffix.data.reverse.isPrefixOf a.data.reverse

/-- Model of `os.path.join` for one component: inserts a slash unless the
first path already ends with one (arguments in the script are never
absolute in second position). -/
def pjoin (a b : String) : String :=
  if strEndsWith a "/" then a ++ b else a ++ "/" ++ b

/-- Characters of Python `os.path.dirname`: everything before the final
slash, with trailing slashes stripped unless the head is all slashes. -/
def dirnameChars (l : List Char) : List Char :=
  let head := (l.reverse.dropWhile (fun c => c ≠ '/')).reverse
  if head.all (fun c => c = '/') then head
  else (head.reverse.dropWhile (fun c => c = '/')).reverse

/-- Model of Python `os.path.dirname`. -/
def dirname (p : String) : String :=
  String.mk (dirnameChars p.data)

/-- Characters of Python `os.path.basename`: everything after the final slash. -/
def basenameChars (l : List Char) : List Char :=
  (l.reverse.takeWhile (fun c => c ≠ '/')).reverse

/-- Model of Python `os.path.basename`. -/
def basename (p : String) : String :=
  String.mk (basenameChars p.data)

/-- Split a character list at `'/'` into path components. -/
def splitSlash : List Char → List (List Char)
  | [] => [[]]
  | c :: rest =>
    match splitSlash rest with
    | [] => [[]]
    | h :: t => if c = '/' then [] :: h :: t else (c :: h) :: t

/-- Path components of a string (used only to state claims about files
lying under `bin` directories). -/
def pathComponents (p : String) : List String :=
  (splitSlash p.data).map (fun l => String.mk l)

/-- The path `p` denotes `root` itself or something below it. -/
def underEq (root p : String) : Bool :=
  p == root || strStartsWith p (if strEndsWith root "/" then root else root ++ "/")

/-- The path `p` lies strictly below directory `root`. -/
def underStrict (root p : String) : Bool :=
  strStartsWith p (if strEndsWith root "/" then root else root ++ "/")

/-- Externally visible events of a run, in order of occurrence. -/
inductive Ev where
  | call (cmd : List String)
  | chdirEv (p : String)
  | removeEv (p : String)
  | rmtreeEv (p : String)
  | mkdirEv (p : String)
  | chmodEv (p : String) (m : Nat)
  | writeEv (p : String)
  | extractallEv (zip : String) (dest : String)
deriving DecidableEq

/-- Python exceptions raised by the script. -/
inductive Err where
  | osError (msg : String)
  | fileNotFound (msg : String)
  | runtimeError (msg : String)
  | calledProcess (cmd : List String)
deriving DecidableEq

/-- Modelled machine state: the filesystem plus the event trace. -/
structure St where
  files : List String
  dirs : List String
  modes : String → Option Nat
  contents : String → Option (List String)
  cwd : String
  trace : List Ev

/-- State-and-exception monad of the embedding: effects performed before an
exception persist, as they do in Python. -/
def M (α : Type) : Type :=
  St → Except Err α × St

/-- Monadic return. -/
def M.pure (a : α) : M α := fun s => (Except.ok a, s)

/-- Monadic bind: short-circuits on a raised exception, keeping the state. -/
def M.bind (x : M α) (f : α → M β) : M β := fun s =>
  match x s with
  | (Except.ok a, s') => f a s'
  | (Except.error e, s') => (Except.error e, s')

instance : Monad M where
  pure := M.pure
  bind := M.bind

/-- Raise a Python exception. -/
def raiseM (e : Err) : M α := fun s => (Except.error e, s)

/-- Model of `subprocess.check_call`: records the invocation and raises
`CalledProcessError` when the oracle reports a non-zero exit status. -/
def check_call (ora : List String → Bool) (cmd : List String) : M Unit := fun s =>
  ((if ora cmd then Except.ok () else Except.error (Err.calledProcess cmd)),
   { s with trace := s.trace ++ [Ev.call cmd] })

/-- Model of `os.path.exists`. -/
def pathExists (p : String) : M Bool := fun s =>
  (Except.ok (decide (p ∈ s.files ∨ p ∈ s.dirs)), s)

/-- Model of `os.chdir`. -/
def chdirM (p : String) : M Unit := fun s =>
  (Except.ok (), { s with cwd := p, trace := s.trace ++ [Ev.chdirEv p] })

/-- Model of `os.remove`. -/
def removeFile (p : String) : M Unit := fun s =>
  (Except.ok (), { s with files := s.files.erase p, trace := s.trace ++ [Ev.removeEv p] })

/-- Model of `shutil.rmtree`: removes the directory and everything below it. -/
def rmtree (p : String) : M Unit := fun s =>
  (Except.ok (),
   { files := s.files.filter (fun f => !underEq p f)
     dirs := s.dirs.filter (fun d => !underEq p d)
     modes := fun q => if underEq p q then none else s.modes q
     contents := fun q => if underEq p q then none else s.contents q
     cwd := s.cwd
     trace := s.trace ++ [Ev.rmtreeEv p] })

/-- Model of `os.makedirs(..., exist_ok=True)`. -/
def mkdirs (p : String) : M Unit := fun s =>
  (Except.ok (),
   { s with dirs := if p ∈ s.dirs then s.dirs else s.dirs ++ [p]
            trace := s.trace ++ [Ev.mkdirEv p] })

/-- Model of opening a file for writing and writing a list of lines. -/
def writeLines (p : String) (ls : List String) : M Unit := fun s =>
  (Except.ok (),
   { s with files := if p ∈ s.files then s.files else s.files ++ [p]
            contents := fun q => if q = p then some ls else s.contents q
            trace := s.trace ++ [Ev.writeEv p] })

/-- Model of `os.chmod`. -/
def chmodFile (p : String) (m : Nat) : M Unit := fun s =>
  (Except.ok (),
   { s with modes := fun q => if q = p then some m else s.modes q
            trace := s.trace ++ [Ev.chmodEv p m] })

/-- Extraction of one archive member: creates the file with the mode the
extraction leaves on it (no separate trace event; the archive-level event
is recorded once by `extract_matlab_runtime`). -/
def addExtracted (p : String) (m : Nat) : M Unit := fun s =>
  (Except.ok (),
   { s with files := if p ∈ s.files then s.files else s.files ++ [p]
            modes := fun q => if q = p then some m else s.modes q })

/-- Record the `ZipFile.extractall` event. -/
def extractallM (zip dest : String) : M Unit := fun s =>
  (Except.ok (), { s with trace := s.trace ++ [Ev.extractallEv zip dest] })

/-- Files below `root`, as enumerated by `os.walk`. -/
def walkFiles (root : String) : M (List String) := fun s =>
  (Except.ok (s.files.filter (fun f => underStrict root f)), s)

/-- Python `try ... finally ...`: the finaliser runs on both exits; an
exception raised by the finaliser replaces the body's outcome. -/
def tryFinallyU (body fin : M Unit) : M Unit := fun s =>
  match body s with
  | (r, s1) =>
    match fin s1 with
    | (Except.ok _, s2) => (r, s2)
    | (Except.error e, s2) => (Except.error e, s2)

/-- Command assembling the SPM archive from its parts (`setup.py` line 53). -/
def byspCmd : List String := ["bysp", "c", "spm_standalone.ctf"]

/-- Command installing the assembled SPM package (`setup.py` line 58);
`exe` stands for `sys.executable`. -/
def setupCmd (exe : String) : List String := [exe, "setup.py", "install"]

/-- The glob pattern `spm_standalone.ctf.*.part` in directory `d`, applied
to a candidate path `f` (a `*` matches any run of characters without a
slash, possibly empty). -/
def partPattern (d : String) (f : String) : Bool :=
  let pre := pjoin d "spm_standalone.ctf."
  strStartsWith f pre && strEndsWith f ".part" &&
    decide (pre.data.length + 5 ≤ f.data.length) &&
    !(((f.data.drop pre.data.length).take (f.data.length - pre.data.length - 5)).contains '/')

/-- Model of the `glob.glob` call of `install_spm`: the existing files
matching `spm_standalone.ctf.*.part` in `d`. -/
def globParts (d : String) : M (List String) := fun s =>
  (Except.ok (s.files.filter (partPattern d)), s)

/-- The `for file in files: os.remove(file)` loop of `install_spm`. -/
def removeEach : List String → M Unit
  | [] => pure ()
  | p :: rest => do
    removeFile p
    removeEach rest

/-- The SPM build directory `build/lib/spm/` under the package base
(`setup.py` line 50). -/
def spm_dir (base_dir : String) : String := pjoin base_dir "build/lib/spm/"

/-- The assembled-archive marker file checked by `install_spm` (line 51). -/
def spm_marker (base_dir : String) : String :=
  pjoin (pjoin (spm_dir base_dir) "spm_standalone") "spm_standalone.ctf"

/-- Model of `CustomInstall.install_spm` (`setup.py` lines 42-60). -/
def install_spm (ora : List String → Bool) (exe base_dir : String) : M Unit := do
  let ex ← pathExists (spm_marker base_dir)
  if !ex then
    chdirM (pjoin (spm_dir base_dir) "spm_standalone")
    check_call ora byspCmd
    let files ← globParts (pjoin (spm_dir base_dir) "spm_standalone")
    removeEach files
  chdirM (spm_dir base_dir)
  check_call ora (setupCmd exe)
  chdirM base_dir
  rmtree (spm_dir base_dir)

/-- The `curl` invocation of `download_file`. -/
def curlCmd (save_path url : String) : List String :=
  ["curl", "-s", "-L", "-o", save_path, url]

/-- Model of `CustomInstall.download_file` (`setup.py` lines 63-72). -/
def download_file (ora : List String → Bool) (url save_path : String) : M Unit := do
  let ex ← pathExists save_path
  if !ex then
    check_call ora (curlCmd save_path url)

/-- The chmod condition of `extract_matlab_runtime` line 88, phrased on the
full path of a walked file: `file` is the basename and `root` the
containing directory produced by `os.walk`. -/
def chmodCond (p : String) : Bool :=
  strEndsWith (basename p) ".sh" || basename p == "install" || strContains "bin" (dirname p)

/-- The `extractall` effect: each archive member is created under `dest`
with the mode extraction leaves on it. -/
def extractEntries (dest : String) : List (String × Nat) → M Unit
  | [] => pure ()
  | e :: rest => do
    addExtracted (pjoin dest e.1) e.2
    extractEntries dest rest

/-- The `os.walk` chmod loop of `extract_matlab_runtime` (lines 86-89). -/
def chmodWalk : List String → M Unit
  | [] => pure ()
  | f :: rest => do
    if chmodCond f then
      chmodFile f 493
    chmodWalk rest

/-- Model of `CustomInstall.extract_matlab_runtime` (`setup.py` lines
75-89); `zip_entries` lists the archive's members with the modes
extraction leaves on them. -/
def extract_matlab_runtime (zip_entries : List (String × Nat))
    (zip_path extract_to : String) : M Unit := do
  mkdirs extract_to
  extractallM zip_path extract_to
  extractEntries extract_to zip_entries
  let walked ← walkFiles extract_to
  chmodWalk walked

/-- The Linux MATLAB runtime download URL (`setup.py` lines 107-111). -/
def linuxRuntimeURL : String :=
  "https://ssd.mathworks.com/supportfiles/downloads/R2019a/Release/9/" ++
  "deployment_files/installer/complete/glnxa64/" ++
  "MATLAB_Runtime_R2019a_Update_9_glnxa64.zip"

/-- The macOS MATLAB runtime download URL (`setup.py` lines 114-118). -/
def macRuntimeURL : String :=
  "https://ssd.mathworks.com/supportfiles/downloads/R2019a/Release/9/" ++
  "deployment_files/installer/complete/maci64/" ++
  "MATLAB_Runtime_R2019a_Update_9_maci64.dmg.zip"

/-- Platform dispatch of `install_matlab_runtime` (lines 105-120): chooses
the runtime archive path and download URL, raising `OSError` otherwise. -/
def runtime_selection (base_dir system : String) : Except Err (String × String) :=
  if system = "Linux" then
    Except.ok (pjoin base_dir "MATLAB_Runtime_R2019a_Update_9_glnxa64.zip", linuxRuntimeURL)
  else if system = "Darwin" then
    Except.ok (pjoin base_dir "MATLAB_Runtime_R2019a_Update_9_maci64.dmg.zip", macRuntimeURL)
  else
    Except.error (Err.osError "Unsupported operating system")

/-- Lift a pure `Except` computation into the monad. -/
def liftExcept (e : Except Err α) : M α := fun s => (e, s)

/-- The loop body of `get_installed_package_dir` (lines 249-255): the first
site-packages entry holding a directory named `name`, if any; `dirs` is
the set of existing directories consulted by `os.path.isdir`. -/
def find_site_dir (name : String) (dirs : List String) : List String → Option String
  | [] => none
  | sp :: rest =>
    if pjoin sp name ∈ dirs then some (pjoin sp name)
    else find_site_dir name dirs rest

/-- Model of `CustomInstall.get_installed_package_dir` (lines 236-255);
`sps` stands for `site.getsitepackages()`.  The real error message also
interpolates the site-packages list after the final colon; that rendering
of the list is elided from the modelled message text. -/
def get_installed_package_dir (sps : List String) (name : String) : M String := fun s =>
  match find_site_dir name s.dirs sps with
  | some p => (Except.ok p, s)
  | none =>
    (Except.error (Err.fileNotFound
      ("Package " ++ name ++ " not found in site-packages directories")), s)

/-- The mount point used on macOS (`setup.py` line 150). -/
def mountPoint : String := "/Volumes/MATLAB_Runtime"

/-- The `hdiutil attach` command (line 153). -/
def attachCmd (dmg_path : String) : List String :=
  ["hdiutil", "attach", dmg_path, "-mountpoint", mountPoint]

/-- The `hdiutil detach` command (line 174). -/
def detachCmd : List String := ["hdiutil", "detach", mountPoint]

/-- The `sudo` silent-install command for the bundled macOS installer
(lines 166-171). -/
def sudoInstallCmd (installer_app : String) : List String :=
  ["sudo", installer_app, "-mode", "silent", "-agreeToLicense", "yes",
   "-destinationFolder", "/Applications/MATLAB/MATLAB_Runtime/v96"]

/-- The Linux silent-install command (lines 136-139). -/
def linuxInstallCmd (install_script destination_dir : String) : List String :=
  [install_script, "-mode", "silent", "-agreeToLicense", "yes",
   "-destinationFolder", destination_dir]

/-- The `unzip` command for the macOS `dmg.zip` (line 146). -/
def unzipCmd (zip base_dir : String) : List String :=
  ["unzip", "-q", zip, "-d", base_dir]

/-- The `try:` block of the macOS branch of `install_matlab_runtime`
(lines 152-171): attach the disk image, check the mount point, locate the
bundled installer and run it. -/
def darwin_try_body (ora : List String → Bool) (base_dir : String) : M Unit := do
  check_call ora (attachCmd (pjoin base_dir "MATLAB_Runtime_R2019a_Update_9_maci64.dmg"))
  let exm ← pathExists mountPoint
  if !exm then
    raiseM (Err.runtimeError ("Failed to mount the dmg file at " ++ mountPoint))
  let installer_app := pjoin mountPoint "InstallForMacOSX.app/Contents/MacOS/InstallForMacOSX"
  let exi ← pathExists installer_app
  if !exi then
    raiseM (Err.fileNotFound ("The installer binary was not found at " ++ installer_app))
  check_call ora (sudoInstallCmd installer_app)

/-- Model of `CustomInstall.install_matlab_runtime` (`setup.py` lines
92-174); `zip_entries` stands for the content of the downloaded Linux
runtime archive. -/
def install_matlab_runtime (ora : List String → Bool) (base_dir system : String)
    (sps : List String) (zip_entries : List (String × Nat)) : M Unit := do
  let sel ← liftExcept (runtime_selection base_dir system)
  download_file ora sel.2 sel.1
  if system = "Linux" then
    let package_dir ← get_installed_package_dir sps "spm_standalone"
    let extract_dir := pjoin package_dir "matlab_runtime"
    extract_matlab_runtime zip_entries sel.1 extract_dir
    let ex ← pathExists (pjoin extract_dir "install")
    if !ex then
      raiseM (Err.fileNotFound ("The install script was not found in " ++ extract_dir))
    check_call ora
      (linuxInstallCmd (pjoin extract_dir "install") (pjoin package_dir "../MATLAB_Runtime"))
    rmtree extract_dir
  else if system = "Darwin" then
    check_call ora (unzipCmd sel.1 base_dir)
    tryFinallyU (darwin_try_body ora base_dir) (check_call ora detachCmd)
  else
    pure ()

/-- Activation hook directory of `set_environment_variables` (lines
184-187); `exe` stands for `sys.executable`. -/
def activate_script_dir (exe : String) : String :=
  pjoin (pjoin (pjoin (dirname (dirname exe)) "etc") "conda") "activate.d"

/-- Path of the activation script `env_vars.sh`. -/
def activate_script_path (exe : String) : String :=
  pjoin (activate_script_dir exe) "env_vars.sh"

/-- Deactivation hook directory (lines 189-191). -/
def deactivate_script_dir (exe : String) : String :=
  pjoin (pjoin (pjoin (dirname (dirname exe)) "etc") "conda") "deactivate.d"

/-- Path of the deactivation script `env_vars.sh`. -/
def deactivate_script_path (exe : String) : String :=
  pjoin (deactivate_script_dir exe) "env_vars.sh"

/-- Lines written to the Linux activation script (lines 200-209), given
the located MATLAB runtime path. -/
def linuxActivateLines (mrp : String) : List String :=
  ["export MATLAB_RUNTIME_DIR=\"" ++ mrp ++ "\"",
   "export _OLD_LD_LIBRARY_PATH=\"$LD_LIBRARY_PATH\"",
   "export LD_LIBRARY_PATH=\"$\x7bMATLAB_RUNTIME_DIR\x7d/v96/runtime/glnxa64:" ++
     "$\x7bMATLAB_RUNTIME_DIR\x7d/v96/bin/glnxa64:" ++
     "$\x7bMATLAB_RUNTIME_DIR\x7d/v96/sys/os/glnxa64:" ++
     "$LD_LIBRARY_PATH\"",
   "export XAPPLRESDIR=\"$\x7bMATLAB_RUNTIME_DIR\x7d/v96/X11/app-defaults\""]

/-- Lines written to the Linux deactivation script (lines 211-215). -/
def linuxDeactivateLines : List String :=
  ["unset MATLAB_RUNTIME_DIR",
   "export LD_LIBRARY_PATH=\"$_OLD_LD_LIBRARY_PATH\"",
   "unset _OLD_LD_LIBRARY_PATH",
   "unset XAPPLRESDIR"]

/-- Lines written to the macOS activation script (lines 219-227). -/
def darwinActivateLines : List String :=
  ["export _OLD_DYLD_LIBRARY_PATH=\"$DYLD_LIBRARY_PATH\"",
   "export DYLD_LIBRARY_PATH=\"/Applications/MATLAB/MATLAB_Runtime/v96/runtime/maci64:" ++
     "/Applications/MATLAB/MATLAB_Runtime/v96/sys/os/maci64:" ++
     "/Applications/MATLAB/MATLAB_Runtime/v96/bin/maci64:" ++
     "/Applications/MATLAB/MATLAB_Runtime/v96/extern/bin/maci64:" ++
     "$DYLD_LIBRARY_PATH\""]

/-- Lines written to the macOS deactivation script (lines 229-231). -/
def darwinDeactivateLines : List String :=
  ["export DYLD_LIBRARY_PATH=\"$_OLD_DYLD_LIBRARY_PATH\"",
   "unset _OLD_DYLD_LIBRARY_PATH"]

/-- Model of `CustomInstall.set_environment_variables` (`setup.py` lines
177-233). -/
def set_environment_variables (system exe : String)
    (sps : List String) : M Unit := do
  mkdirs (activate_script_dir exe)
  mkdirs (deactivate_script_dir exe)
  if system = "Linux" then
    let matlab_runtime_path ← get_installed_package_dir sps "MATLAB_Runtime"
    writeLines (activate_script_path exe) (linuxActivateLines matlab_runtime_path)
    writeLines (deactivate_script_path exe) linuxDeactivateLines
  else if system = "Darwin" then
    writeLines (activate_script_path exe) darwinActivateLines
    writeLines (deactivate_script_path exe) darwinDeactivateLines
  else
    raiseM (Err.osError "Unsupported operating system")

/-- The external-process invocations recorded in a trace, in order. -/
def callsOf : List Ev → List (List String)
  | [] => []
  | Ev.call c :: rest => c :: callsOf rest
  | _ :: rest => callsOf rest

/-- Mode left on path `q` by the extraction loop over the archive members
`l` into `dest` (later members overwrite earlier ones). -/
def entryMode (dest : String) (l : List (String × Nat)) (q : String) : Option Nat :=
  match l with
  | [] => none
  | e :: rest =>
    match entryMode dest rest q with
    | some m => some m
    | none => if q = pjoin dest e.1 then some e.2 else none

/-- File list left by the extraction loop over the archive members `l`
into `dest`, starting from the existing files `fs`. -/
def extFiles (dest : String) (l : List (String × Nat)) (fs : List String) : List String :=
  match l with
  | [] => fs
  | e :: rest => extFiles dest rest (if pjoin dest e.1 ∈ fs then fs else fs ++ [pjoin dest e.1])

/-- Predicted state after `extract_matlab_runtime zip_entries zip_path
extract_to`: members created, then the walk-and-chmod pass applied. -/
def extractedState (zip_entries : List (String × Nat)) (zip_path extract_to : String)
    (s : St) : St :=
  let fs1 := extFiles extract_to zip_entries s.files
  let walked := fs1.filter (fun f => underStrict extract_to f)
  { files := fs1
    dirs := if extract_to ∈ s.dirs then s.dirs else s.dirs ++ [extract_to]
    modes := fun q =>
      if q ∈ walked ∧ chmodCond q then some 493
      else
        match entryMode extract_to zip_entries q with
        | some m => some m
        | none => s.modes q
    contents := s.contents
    cwd := s.cwd
    trace := s.trace ++ [Ev.mkdirEv extract_to, Ev.extractallEv zip_path extract_to] ++
      (walked.filter chmodCond).map (fun f => Ev.chmodEv f 493) }

/-- An always-succeeding process oracle, used by concrete witnesses. -/
def oraT : List String → Bool := fun _ => true

/-- An empty concrete state, used by concrete witnesses. -/
def st0 : St := ⟨[], [], fun _ => none, fun _ => none, "/", []⟩

/-! ### Infrastructure lemmas -/

theorem M_bind_eval (x : M α) (f : α → M β) (s : St) :
    (x >>= f) s = match x s with
      | (Except.ok a, s') => f a s'
      | (Except.error e, s') => (Except.error e, s') := rfl

theorem M_pure_eval (a : α) (s : St) : (pure a : M α) s = (Except.ok a, s) := rfl

theorem callsOf_append (a b : List Ev) : callsOf (a ++ b) = callsOf a ++ callsOf b := by
  induction a with
  | nil => rfl
  | cons e rest ih => cases e <;> simp [callsOf, ih]

theorem callsOf_map_chmod (l : List String) :
    callsOf (l.map (fun f => Ev.chmodEv f 493)) = [] := by
  induction l with
  | nil => rfl
  | cons f rest ih => simp [callsOf, ih]

theorem callsOf_map_remove (l : List String) :
    callsOf (l.map Ev.removeEv) = [] := by
  induction l with
  | nil => rfl
  | cons f rest ih => simp [callsOf, ih]

theorem isPrefixOf_append_self (l r : List Char) : l.isPrefixOf (l ++ r) = true := by
  induction l with
  | nil => simp [List.isPrefixOf]
  | cons c cs ih => simp [List.isPrefixOf, ih]

theorem underStrict_pjoin (d b : String) : underStrict d (pjoin d b) = true := by
  unfold underStrict pjoin
  by_cases h : strEndsWith d "/"
  · rw [if_pos h, if_pos h]
    unfold strStartsWith
    rw [String.data_append]
    exact isPrefixOf_append_self _ _
  · rw [if_neg h, if_neg h]
    unfold strStartsWith
    rw [String.data_append]
    exact isPrefixOf_append_self _ _

theorem data_length_pos_of_ne_empty (b : String) (h : b ≠ "") : 0 < b.data.length := by
  cases hd : b.data with
  | nil => exact absurd (String.ext hd) h
  | cons c cs => simp

theorem pjoin_ne_left (x b : String) (hb : b ≠ "") : pjoin x b ≠ x := by
  intro h
  have hlen := congrArg (fun t => t.data.length) h
  have hbpos := data_length_pos_of_ne_empty b hb
  unfold pjoin at hlen
  by_cases he : strEndsWith x "/"
  · rw [if_pos he] at hlen
    simp only [String.data_append, List.length_append] at hlen
    omega
  · rw [if_neg he] at hlen
    simp only [String.data_append, List.length_append] at hlen
    simp only [show ("/" : String).data.length = 1 from rfl] at hlen
    omega

theorem strEndsWith_slash_of_head (a b : String) (c : Char)
    (h : b.data.reverse.head? = some c) (hc : c ≠ '/') :
    strEndsWith (a ++ b) "/" = false := by
  unfold strEndsWith
  rw [String.data_append, List.reverse_append]
  cases hr : b.data.reverse with
  | nil => rw [hr] at h; exact absurd h (by simp)
  | cons c0 rest =>
    rw [hr] at h
    have hc0 : c0 = c := by simpa using h
    have hne : ('/' == c0) = false := by
      apply beq_eq_false_iff_ne.mpr
      rw [hc0]
      exact fun hh => hc hh.symm
    simp [show ("/" : String).data.reverse = ['/'] from rfl, List.isPrefixOf,
      List.cons_append, hne]

theorem pjoin_endsWith_false (y b : String) (c : Char)
    (h : b.data.reverse.head? = some c) (hc : c ≠ '/') :
    strEndsWith (pjoin y b) "/" = false := by
  unfold pjoin
  by_cases he : strEndsWith y "/"
  · rw [if_pos he]; exact strEndsWith_slash_of_head y b c h hc
  · rw [if_neg he]; exact strEndsWith_slash_of_head (y ++ "/") b c h hc

theorem removeEach_run (l : List String) (s : St) :
    removeEach l s = (Except.ok (),
      { s with files := l.foldl (fun fs p => fs.erase p) s.files
               trace := s.trace ++ l.map Ev.removeEv }) := by
  induction l generalizing s with
  | nil => simp [removeEach, M_pure_eval]
  | cons p rest ih =>
    simp only [removeEach, M_bind_eval, removeFile]
    rw [ih]
    simp [List.append_assoc]

theorem entryMode_cons_overlay (dest : String) (e : String × Nat)
    (rest : List (String × Nat)) (ms : String → Option Nat) :
    (fun q =>
      match entryMode dest rest q with
      | some m => some m
      | none => if q = pjoin dest e.1 then some e.2 else ms q) =
    (fun q =>
      match entryMode dest (e :: rest) q with
      | some m => some m
      | none => ms q) := by
  funext q
  simp only [entryMode]
  cases hr : entryMode dest rest q with
  | some m => simp
  | none => by_cases hq : q = pjoin dest e.1 <;> simp [hq, hr]

theorem extractEntries_run (dest : String) (l : List (String × Nat)) (s : St) :
    extractEntries dest l s = (Except.ok (),
      { s with files := extFiles dest l s.files
               modes := fun q =>
                 match entryMode dest l q with
                 | some m => some m
                 | none => s.modes q }) := by
  induction l generalizing s with
  | nil =>
    simp only [extractEntries, M_pure_eval, extFiles, entryMode]
  | cons e rest ih =>
    simp only [extractEntries, M_bind_eval, addExtracted]
    rw [ih]
    simp only [Prod.mk.injEq, true_and]
    obtain ⟨fs, ds, ms, cs, cw, tr⟩ := s
    simp only [extFiles, St.mk.injEq, true_and, and_true]
    exact entryMode_cons_overlay dest e rest ms

theorem chmod_overlay_cons (f : String) (rest : List String) (ms : String → Option Nat)
    (hf : chmodCond f = true) :
    (fun q => if q ∈ rest ∧ chmodCond q then some 493 else
       if q = f then some 493 else ms q) =
    (fun q => if q ∈ f :: rest ∧ chmodCond q then (some 493 : Option Nat) else ms q) := by
  funext q
  by_cases hq : q ∈ rest ∧ chmodCond q = true
  · simp [hq, hq.1, hq.2]
  · by_cases hqf : q = f
    · subst hqf
      simp [hq, hf]
    · have hno : ¬(q ∈ f :: rest ∧ chmodCond q = true) := by
        intro ⟨hmem, hcond⟩
        rcases List.mem_cons.mp hmem with h1 | h1
        · exact hqf h1
        · exact hq ⟨h1, hcond⟩
      simp [hq, hno, hqf]

theorem chmod_overlay_cons_neg (f : String) (rest : List String) (ms : String → Option Nat)
    (hf : ¬ chmodCond f = true) :
    (fun q => if q ∈ rest ∧ chmodCond q then (some 493 : Option Nat) else ms q) =
    (fun q => if q ∈ f :: rest ∧ chmodCond q then (some 493 : Option Nat) else ms q) := by
  funext q
  by_cases hq : q ∈ rest ∧ chmodCond q = true
  · simp [hq, hq.1, hq.2]
  · have hno : ¬(q ∈ f :: rest ∧ chmodCond q = true) := by
      intro ⟨hmem, hcond⟩
      rcases List.mem_cons.mp hmem with h1 | h1
      · exact hf (h1 ▸ hcond)
      · exact hq ⟨h1, hcond⟩
    rw [if_neg hq, if_neg hno]

theorem chmodWalk_run (l : List String) (s : St) :
    chmodWalk l s = (Except.ok (),
      { s with modes := fun q => if q ∈ l ∧ chmodCond q then some 493 else s.modes q
               trace := s.trace ++ (l.filter chmodCond).map (fun f => Ev.chmodEv f 493) }) := by
  induction l generalizing s with
  | nil => simp [chmodWalk, M_pure_eval]
  | cons f rest ih =>
    by_cases hf : chmodCond f
    · simp only [chmodWalk]
      rw [if_pos hf]
      simp only [M_bind_eval, chmodFile]
      rw [ih]
      simp only [Prod.mk.injEq, true_and]
      obtain ⟨fs, ds, ms, cs, cw, tr⟩ := s
      simp only [St.mk.injEq, true_and, and_true, List.filter_cons_of_pos hf,
        List.map_cons, List.append_assoc, List.cons_append, List.nil_append]
      exact chmod_overlay_cons f rest ms hf
    · simp only [chmodWalk]
      rw [if_neg hf]
      simp only [M_bind_eval, M_pure_eval]
      rw [ih]
      simp only [Prod.mk.injEq, true_and]
      obtain ⟨fs, ds, ms, cs, cw, tr⟩ := s
      simp only [St.mk.injEq, true_and, and_true,
        List.filter_cons_of_neg (by simpa using hf)]
      exact chmod_overlay_cons_neg f rest ms hf

theorem extract_run (z : List (String × Nat)) (zp d : String) (s : St) :
    extract_matlab_runtime z zp d s = (Except.ok (), extractedState z zp d s) := by
  simp only [extract_matlab_runtime, M_bind_eval, mkdirs, extractallM]
  rw [extractEntries_run]
  simp only [walkFiles, M_bind_eval]
  rw [chmodWalk_run]
  simp [extractedState, List.append_assoc]

theorem mem_extFiles (dest : String) (l : List (String × Nat)) (fs : List String)
    (p : String) :
    p ∈ extFiles dest l fs ↔ p ∈ fs ∨ p ∈ l.map (fun e => pjoin dest e.1) := by
  induction l generalizing fs with
  | nil => simp [extFiles]
  | cons e rest ih =>
    simp only [extFiles, List.map_cons, List.mem_cons]
    rw [ih]
    by_cases hm : pjoin dest e.1 ∈ fs
    · rw [if_pos hm]
      constructor
      · rintro (h | h)
        · exact Or.inl h
        · exact Or.inr (Or.inr h)
      · rintro (h | h | h)
        · exact Or.inl h
        · exact Or.inl (h ▸ hm)
        · exact Or.inr h
    · rw [if_neg hm]
      simp only [List.mem_append, List.mem_singleton]
      tauto

theorem extFiles_fresh (dest : String) (l : List (String × Nat)) (fs : List String)
    (h1 : ∀ e ∈ l, pjoin dest e.1 ∉ fs)
    (h2 : (l.map (fun e => pjoin dest e.1)).Nodup) :
    extFiles dest l fs = fs ++ l.map (fun e => pjoin dest e.1) := by
  induction l generalizing fs with
  | nil => simp [extFiles]
  | cons e rest ih =>
    simp only [extFiles]
    rw [if_neg (h1 e (List.mem_cons_self e rest))]
    simp only [List.map_cons, List.nodup_cons] at h2
    rw [ih (fs ++ [pjoin dest e.1])
      (fun e' he' => by
        simp only [List.mem_append, List.mem_singleton]
        rintro (h | h)
        · exact h1 e' (List.mem_cons_of_mem e he') h
        · exact h2.1 (h ▸ List.mem_map_of_mem (fun e => pjoin dest e.1) he'))
      h2.2]
    simp

theorem entryMode_none (dest : String) (l : List (String × Nat)) (q : String)
    (h : q ∉ l.map (fun e => pjoin dest e.1)) :
    entryMode dest l q = none := by
  induction l with
  | nil => rfl
  | cons e rest ih =>
    simp only [List.map_cons, List.mem_cons] at h
    push_neg at h
    simp only [entryMode, ih h.2, if_neg h.1]

theorem entryMode_mem (dest : String) (l : List (String × Nat)) (e : String × Nat)
    (h2 : (l.map (fun e => pjoin dest e.1)).Nodup) (he : e ∈ l) :
    entryMode dest l (pjoin dest e.1) = some e.2 := by
  induction l with
  | nil => exact absurd he (List.not_mem_nil e)
  | cons f rest ih =>
    simp only [List.map_cons, List.nodup_cons] at h2
    rcases List.mem_cons.mp he with h | h
    · subst h
      simp [entryMode, entryMode_none dest rest _ h2.1]
    · simp only [entryMode, ih h2.2 h]

theorem find_site_dir_eq_find (name : String) (dirs : List String) (sps : List String) :
    find_site_dir name dirs sps =
      Option.map (fun sp => pjoin sp name)
        (sps.find? (fun sp => decide (pjoin sp name ∈ dirs))) := by
  induction sps with
  | nil => rfl
  | cons sp rest ih =>
    by_cases h : pjoin sp name ∈ dirs
    · simp [find_site_dir, h, List.find?]
    · simp only [find_site_dir, if_neg h, ih, List.find?]
      rw [show (decide (pjoin sp name ∈ dirs)) = false by simp [h]]

theorem tryFinally_check (body : M Unit) (ora : List String → Bool)
    (cmd : List String) (s : St) :
    tryFinallyU body (check_call ora cmd) s =
      ((if ora cmd then (body s).1 else Except.error (Err.calledProcess cmd)),
       { (body s).2 with trace := (body s).2.trace ++ [Ev.call cmd] }) := by
  unfold tryFinallyU check_call
  rcases hbs : body s with ⟨r, s1⟩
  by_cases h : ora cmd
  · simp [h]
  · simp [h]

theorem install_spm_run_marker (ora : List String → Bool) (exe base : String) (s : St)
    (h : spm_marker base ∈ s.files ∨ spm_marker base ∈ s.dirs) :
    install_spm ora exe base s =
      if ora (setupCmd exe) then
        (Except.ok (),
         { files := s.files.filter (fun f => !underEq (spm_dir base) f)
           dirs := s.dirs.filter (fun d => !underEq (spm_dir base) d)
           modes := fun q => if underEq (spm_dir base) q then none else s.modes q
           contents := fun q => if underEq (spm_dir base) q then none else s.contents q
           cwd := base
           trace := s.trace ++ [Ev.chdirEv (spm_dir base), Ev.call (setupCmd exe),
             Ev.chdirEv base, Ev.rmtreeEv (spm_dir base)] })
      else
        (Except.error (Err.calledProcess (setupCmd exe)),
         { s with cwd := spm_dir base
                  trace := s.trace ++ [Ev.chdirEv (spm_dir base), Ev.call (setupCmd exe)] }) := by
  unfold install_spm
  simp only [M_bind_eval, pathExists, h, decide_eq_true_eq]
  by_cases hs : ora (setupCmd exe)
  · simp [h, hs, chdirM, check_call, rmtree, M_bind_eval, M_pure_eval, List.append_assoc]
  · simp [h, hs, chdirM, check_call, rmtree, M_bind_eval, M_pure_eval, List.append_assoc]

theorem install_spm_run_noMarker (ora : List String → Bool) (exe base : String) (s : St)
    (h : ¬(spm_marker base ∈ s.files ∨ spm_marker base ∈ s.dirs)) :
    install_spm ora exe base s =
      if ora byspCmd then
        (if ora (setupCmd exe) then
          (Except.ok (),
           { files := ((s.files.filter
                (partPattern (pjoin (spm_dir base) "spm_standalone"))).foldl
                  (fun fs p => fs.erase p) s.files).filter
                (fun f => !underEq (spm_dir base) f)
             dirs := s.dirs.filter (fun d => !underEq (spm_dir base) d)
             modes := fun q => if underEq (spm_dir base) q then none else s.modes q
             contents := fun q => if underEq (spm_dir base) q then none else s.contents q
             cwd := base
             trace := s.trace ++
               [Ev.chdirEv (pjoin (spm_dir base) "spm_standalone"), Ev.call byspCmd] ++
               (s.files.filter
                 (partPattern (pjoin (spm_dir base) "spm_standalone"))).map Ev.removeEv ++
               [Ev.chdirEv (spm_dir base), Ev.call (setupCmd exe),
                Ev.chdirEv base, Ev.rmtreeEv (spm_dir base)] })
        else
          (Except.error (Err.calledProcess (setupCmd exe)),
           { s with
               files := (s.files.filter
                 (partPattern (pjoin (spm_dir base) "spm_standalone"))).foldl
                   (fun fs p => fs.erase p) s.files,
               cwd := spm_dir base,
               trace := s.trace ++
                 [Ev.chdirEv (pjoin (spm_dir base) "spm_standalone"), Ev.call byspCmd] ++
                 (s.files.filter
                   (partPattern (pjoin (spm_dir base) "spm_standalone"))).map Ev.removeEv ++
                 [Ev.chdirEv (spm_dir base), Ev.call (setupCmd exe)] }))
      else
        (Except.error (Err.calledProcess byspCmd),
         { s with
             cwd := pjoin (spm_dir base) "spm_standalone",
             trace := s.trace ++
               [Ev.chdirEv (pjoin (spm_dir base) "spm_standalone"), Ev.call byspCmd] }) := by
  unfold install_spm
  simp only [M_bind_eval, pathExists, h, decide_eq_true_eq]
  by_cases hb : ora byspCmd
  · by_cases hs : ora (setupCmd exe)
    · simp [h, hb, hs, chdirM, check_call, globParts, removeEach_run, rmtree,
        M_bind_eval, M_pure_eval, List.append_assoc]
    · simp [h, hb, hs, chdirM, check_call, globParts, removeEach_run, rmtree,
        M_bind_eval, M_pure_eval, List.append_assoc]
  · simp [h, hb, chdirM, check_call, globParts, removeEach_run, rmtree,
      M_bind_eval, M_pure_eval, List.append_assoc]

/-! ### Claims -/

/-- C3: `download_file` is idempotent by presence check. If the save path
already exists, no external transfer tool is invoked and the state —
filesystem and trace alike — is unchanged; otherwise exactly one `curl`
invocation is recorded for that URL and save path and the filesystem is
otherwise untouched. -/
theorem c3_download_file_idempotent (ora : List String → Bool) (url save_path : String)
    (s : St) :
    (save_path ∈ s.files ∨ save_path ∈ s.dirs →
      download_file ora url save_path s = (Except.ok (), s)) ∧
    (¬(save_path ∈ s.files ∨ save_path ∈ s.dirs) →
      download_file ora url save_path s =
        ((if ora (curlCmd save_path url) then Except.ok ()
          else Except.error (Err.calledProcess (curlCmd save_path url))),
         { s with trace := s.trace ++ [Ev.call (curlCmd save_path url)] })) := by
  constructor
  · intro h
    simp [download_file, pathExists, M_bind_eval, M_pure_eval, h]
  · intro h
    simp [download_file, pathExists, M_bind_eval, M_pure_eval, h, check_call]

/-- Witness for C3: on a state already holding the target file the
download is a no-op; on the empty state exactly one `curl` call happens. -/
theorem c3_download_file_idempotent_witness :
    (("/f" : String) ∈ ["/f"] ∨ ("/f" : String) ∈ ([] : List String)) ∧
    download_file oraT "http://u" "/f" ⟨["/f"], [], fun _ => none, fun _ => none, "/", []⟩ =
      (Except.ok (), ⟨["/f"], [], fun _ => none, fun _ => none, "/", []⟩) ∧
    download_file oraT "http://u" "/g" st0 =
      ((if oraT (curlCmd "/g" "http://u") then Except.ok ()
        else Except.error (Err.calledProcess (curlCmd "/g" "http://u"))),
       { st0 with trace := st0.trace ++ [Ev.call (curlCmd "/g" "http://u")] }) :=
  ⟨by simp,
   (c3_download_file_idempotent oraT "http://u" "/f" _).1 (by simp),
   (c3_download_file_idempotent oraT "http://u" "/g" st0).2 (by simp [st0])⟩

/-- C7: `get_installed_package_dir` returns the join of the first
site-packages entry containing an existing directory of the requested
name, and raises `FileNotFoundError` exactly when no entry contains one. -/
theorem c7_get_installed_package_dir_spec (sps : List String) (name : String) (s : St) :
    (∀ sp, sps.find? (fun sp => decide (pjoin sp name ∈ s.dirs)) = some sp →
       get_installed_package_dir sps name s = (Except.ok (pjoin sp name), s)) ∧
    (sps.find? (fun sp => decide (pjoin sp name ∈ s.dirs)) = none →
       get_installed_package_dir sps name s =
         (Except.error (Err.fileNotFound
           ("Package " ++ name ++ " not found in site-packages directories")), s)) ∧
    ((get_installed_package_dir sps name s).1 =
       Except.error (Err.fileNotFound
         ("Package " ++ name ++ " not found in site-packages directories")) ↔
      ∀ sp ∈ sps, pjoin sp name ∉ s.dirs) := by
  refine ⟨?_, ?_, ?_⟩
  · intro sp h
    unfold get_installed_package_dir
    rw [find_site_dir_eq_find, h]
    rfl
  · intro h
    unfold get_installed_package_dir
    rw [find_site_dir_eq_find, h]
    rfl
  · unfold get_installed_package_dir
    rw [find_site_dir_eq_find]
    cases hf : sps.find? (fun sp => decide (pjoin sp name ∈ s.dirs)) with
    | none =>
      simp only [Option.map_none']
      constructor
      · intro _ sp hsp
        have := List.find?_eq_none.mp hf sp hsp
        simpa using this
      · intro _
        trivial
    | some sp =>
      simp only [Option.map_some']
      constructor
      · intro h
        exact absurd h (by simp)
      · intro hall
        have hmem := List.mem_of_find?_eq_some hf
        have hpred := List.find?_some hf
        simp only [decide_eq_true_eq] at hpred
        exact absurd hpred (hall sp hmem)

/-- Witness for C7: with one site-packages entry holding the directory the
join is returned; with none a `FileNotFoundError` is raised. -/
theorem c7_get_installed_package_dir_spec_witness :
    (["/sp"].find? (fun sp => decide (pjoin sp "pkg" ∈ ["/sp/pkg"])) = some "/sp") ∧
    get_installed_package_dir ["/sp"] "pkg"
        ⟨[], ["/sp/pkg"], fun _ => none, fun _ => none, "/", []⟩ =
      (Except.ok (pjoin "/sp" "pkg"),
       ⟨[], ["/sp/pkg"], fun _ => none, fun _ => none, "/", []⟩) ∧
    get_installed_package_dir ["/sp"] "pkg" st0 =
      (Except.error (Err.fileNotFound
        ("Package " ++ "pkg" ++ " not found in site-packages directories")), st0) :=
  ⟨by decide,
   (c7_get_installed_package_dir_spec ["/sp"] "pkg" _).1 "/sp" (by decide),
   (c7_get_installed_package_dir_spec ["/sp"] "pkg" st0).2.1 (by decide)⟩

/-- C6: `install_spm` invokes the archiving tool `bysp` and then removes
every `spm_standalone.ctf.*.part` file exactly when the marker
`spm_standalone.ctf` does not already exist; in both cases it afterwards
invokes the package's local `setup.py install`. -/
theorem c6_install_spm_assembly (ora : List String → Bool) (exe base : String) (s : St)
    (hb : ora byspCmd = true) (hs : ora (setupCmd exe) = true) :
    (spm_marker base ∈ s.files ∨ spm_marker base ∈ s.dirs →
      (install_spm ora exe base s).1 = Except.ok () ∧
      (install_spm ora exe base s).2.trace = s.trace ++
        [Ev.chdirEv (spm_dir base), Ev.call (setupCmd exe), Ev.chdirEv base,
         Ev.rmtreeEv (spm_dir base)]) ∧
    (¬(spm_marker base ∈ s.files ∨ spm_marker base ∈ s.dirs) →
      (install_spm ora exe base s).1 = Except.ok () ∧
      (install_spm ora exe base s).2.trace = s.trace ++
        [Ev.chdirEv (pjoin (spm_dir base) "spm_standalone"), Ev.call byspCmd] ++
        (s.files.filter
          (partPattern (pjoin (spm_dir base) "spm_standalone"))).map Ev.removeEv ++
        [Ev.chdirEv (spm_dir base), Ev.call (setupCmd exe), Ev.chdirEv base,
         Ev.rmtreeEv (spm_dir base)]) := by
  constructor
  · intro h
    rw [install_spm_run_marker ora exe base s h]
    simp [hs]
  · intro h
    rw [install_spm_run_noMarker ora exe base s h]
    simp [hb, hs, List.append_assoc]

/-- Witness for C6: with the marker present only `setup.py install` runs;
with it absent `bysp` runs and the single part file is removed first. -/
theorem c6_install_spm_assembly_witness :
    (oraT byspCmd = true) ∧ (oraT (setupCmd "/py") = true) ∧
    (spm_marker "/b" ∈ ["/b/build/lib/spm/spm_standalone/spm_standalone.ctf"] ∨
      spm_marker "/b" ∈ ([] : List String)) ∧
    ((install_spm oraT "/py" "/b"
        ⟨["/b/build/lib/spm/spm_standalone/spm_standalone.ctf"], [],
         fun _ => none, fun _ => none, "/", []⟩).1 = Except.ok () ∧
     (install_spm oraT "/py" "/b"
        ⟨["/b/build/lib/spm/spm_standalone/spm_standalone.ctf"], [],
         fun _ => none, fun _ => none, "/", []⟩).2.trace = [] ++
        [Ev.chdirEv (spm_dir "/b"), Ev.call (setupCmd "/py"), Ev.chdirEv "/b",
         Ev.rmtreeEv (spm_dir "/b")]) :=
  ⟨rfl, rfl, by decide,
   ((c6_install_spm_assembly oraT "/py" "/b"
      ⟨["/b/build/lib/spm/spm_standalone/spm_standalone.ctf"], [],
       fun _ => none, fun _ => none, "/", []⟩ rfl rfl).1 (by decide))⟩

/-- C10: after a successful `install_spm` run the whole SPM build
directory `build/lib/spm/` is gone from the filesystem — not only the
`.part` files — and the `rmtree` of the build directory happened
regardless of whether assembly was needed. -/
theorem c10_install_spm_removes_build_dir (ora : List String → Bool) (exe base : String)
    (s : St) (h : (install_spm ora exe base s).1 = Except.ok ()) :
    (∀ p, underEq (spm_dir base) p = true →
       p ∉ (install_spm ora exe base s).2.files ∧
       p ∉ (install_spm ora exe base s).2.dirs) ∧
    Ev.rmtreeEv (spm_dir base) ∈ (install_spm ora exe base s).2.trace := by
  by_cases hm : spm_marker base ∈ s.files ∨ spm_marker base ∈ s.dirs
  · rw [install_spm_run_marker ora exe base s hm] at h ⊢
    by_cases hs : ora (setupCmd exe)
    · rw [if_pos hs] at h ⊢
      refine ⟨fun p hp => ⟨?_, ?_⟩, by simp⟩
      · intro hmem
        have := (List.mem_filter.mp hmem).2
        simp [hp] at this
      · intro hmem
        have := (List.mem_filter.mp hmem).2
        simp [hp] at this
    · rw [if_neg hs] at h
      exact absurd h (by simp)
  · rw [install_spm_run_noMarker ora exe base s hm] at h ⊢
    by_cases hb : ora byspCmd
    · rw [if_pos hb] at h ⊢
      by_cases hs : ora (setupCmd exe)
      · rw [if_pos hs] at h ⊢
        refine ⟨fun p hp => ⟨?_, ?_⟩, by simp⟩
        · intro hmem
          have := (List.mem_filter.mp hmem).2
          simp [hp] at this
        · intro hmem
          have := (List.mem_filter.mp hmem).2
          simp [hp] at this
      · rw [if_neg hs] at h
        exact absurd h (by simp)
    · rw [if_neg hb] at h
      exact absurd h (by simp)

/-- Witness for C10: on a concrete state holding the marker and a stale
file inside the build tree, the whole build directory is removed. -/
theorem c10_install_spm_removes_build_dir_witness :
    ((install_spm oraT "/py" "/b"
       ⟨["/b/build/lib/spm/spm_standalone/spm_standalone.ctf"],
        ["/b/build/lib/spm/"], fun _ => none, fun _ => none, "/", []⟩).1 =
      Except.ok ()) ∧
    (underEq (spm_dir "/b") "/b/build/lib/spm/spm_standalone/spm_standalone.ctf" = true ∧
     "/b/build/lib/spm/spm_standalone/spm_standalone.ctf" ∉
       (install_spm oraT "/py" "/b"
         ⟨["/b/build/lib/spm/spm_standalone/spm_standalone.ctf"],
          ["/b/build/lib/spm/"], fun _ => none, fun _ => none, "/", []⟩).2.files ∧
     "/b/build/lib/spm/spm_standalone/spm_standalone.ctf" ∉
       (install_spm oraT "/py" "/b"
         ⟨["/b/build/lib/spm/spm_standalone/spm_standalone.ctf"],
          ["/b/build/lib/spm/"], fun _ => none, fun _ => none, "/", []⟩).2.dirs) ∧
    Ev.rmtreeEv (spm_dir "/b") ∈
      (install_spm oraT "/py" "/b"
        ⟨["/b/build/lib/spm/spm_standalone/spm_standalone.ctf"],
         ["/b/build/lib/spm/"], fun _ => none, fun _ => none, "/", []⟩).2.trace := by
  have main := c10_install_spm_removes_build_dir oraT "/py" "/b"
    ⟨["/b/build/lib/spm/spm_standalone/spm_standalone.ctf"],
     ["/b/build/lib/spm/"], fun _ => none, fun _ => none, "/", []⟩ rfl
  exact ⟨rfl,
    ⟨by decide,
     (main.1 "/b/build/lib/spm/spm_standalone/spm_standalone.ctf" (by decide)).1,
     (main.1 "/b/build/lib/spm/spm_standalone/spm_standalone.ctf" (by decide)).2⟩,
    main.2⟩

theorem pjoin_of_not_slash (a b : String) (h : strEndsWith a "/" = false) :
    pjoin a b = a ++ "/" ++ b := by
  simp [pjoin, h]

theorem activate_ne_deactivate (exe : String) :
    activate_script_path exe ≠ deactivate_script_path exe := by
  intro h
  have hP1 : strEndsWith (pjoin (pjoin (dirname (dirname exe)) "etc") "conda") "/" = false :=
    pjoin_endsWith_false (pjoin (dirname (dirname exe)) "etc") "conda" 'a' rfl (by decide)
  unfold activate_script_path deactivate_script_path
    activate_script_dir deactivate_script_dir at h
  rw [pjoin_of_not_slash _ "activate.d" hP1, pjoin_of_not_slash _ "deactivate.d" hP1] at h
  rw [pjoin_of_not_slash _ "env_vars.sh"
      (strEndsWith_slash_of_head _ "activate.d" 'd' rfl (by decide)),
    pjoin_of_not_slash _ "env_vars.sh"
      (strEndsWith_slash_of_head _ "deactivate.d" 'd' rfl (by decide))] at h
  have hd := congrArg String.data h
  simp only [String.data_append, List.append_assoc] at hd
  have hc := List.append_cancel_left hd
  exact absurd hc (by decide)

theorem get_installed_run_some (sps : List String) (name : String) (s : St) (mrp : String)
    (hfind : find_site_dir name s.dirs sps = some mrp) :
    get_installed_package_dir sps name s = (Except.ok mrp, s) := by
  unfold get_installed_package_dir
  rw [hfind]

/-- C2 (amended): on Linux the activation script exports the runtime-root
variable `MATLAB_RUNTIME_DIR`, saves `LD_LIBRARY_PATH` to an `_OLD_`
variable before re-exporting it, and exports `XAPPLRESDIR`, while the
deactivation script restores the saved value and unsets the other three
variables; on macOS only the `DYLD_LIBRARY_PATH` save/restore pair is
written and no runtime-root variable is set or unset. -/
theorem c2_env_scripts_amended (exe : String) (sps : List String) (s : St) :
    (∀ mrp, activate_script_dir exe ∈ s.dirs → deactivate_script_dir exe ∈ s.dirs →
      find_site_dir "MATLAB_Runtime" s.dirs sps = some mrp →
      (set_environment_variables "Linux" exe sps s).1 = Except.ok () ∧
      (set_environment_variables "Linux" exe sps s).2.contents
          (activate_script_path exe) = some (linuxActivateLines mrp) ∧
      (set_environment_variables "Linux" exe sps s).2.contents
          (deactivate_script_path exe) = some linuxDeactivateLines) ∧
    ((set_environment_variables "Darwin" exe sps s).1 = Except.ok () ∧
     (set_environment_variables "Darwin" exe sps s).2.contents
         (activate_script_path exe) = some darwinActivateLines ∧
     (set_environment_variables "Darwin" exe sps s).2.contents
         (deactivate_script_path exe) = some darwinDeactivateLines) := by
  have hne := activate_ne_deactivate exe
  constructor
  · intro mrp hA hD hfind
    unfold set_environment_variables
    generalize hpa : activate_script_path exe = pA at hne ⊢
    generalize hpd : deactivate_script_path exe = pD at hne ⊢
    generalize hga : activate_script_dir exe = dA at hA ⊢
    generalize hgd : deactivate_script_dir exe = dD at hD ⊢
    simp only [-reduceIte, -reduceDIte, M_bind_eval, mkdirs, if_pos hA, if_pos hD, if_true]
    rw [get_installed_run_some sps "MATLAB_Runtime"
      { s with trace := s.trace ++ [Ev.mkdirEv dA] ++ [Ev.mkdirEv dD] } mrp hfind]
    refine ⟨rfl, ?_, ?_⟩
    · show (if pA = pD then some linuxDeactivateLines
        else if pA = pA then some (linuxActivateLines mrp)
        else s.contents pA) = some (linuxActivateLines mrp)
      rw [if_neg hne, if_pos rfl]
    · show (if pD = pD then some linuxDeactivateLines
        else if pD = pA then some (linuxActivateLines mrp)
        else s.contents pD) = some linuxDeactivateLines
      rw [if_pos rfl]
  · unfold set_environment_variables
    generalize hpa : activate_script_path exe = pA at hne ⊢
    generalize hpd : deactivate_script_path exe = pD at hne ⊢
    generalize hga : activate_script_dir exe = dA
    generalize hgd : deactivate_script_dir exe = dD
    simp only [-reduceIte, -reduceDIte, M_bind_eval, mkdirs, if_true, if_false]
    refine ⟨rfl, ?_, ?_⟩
    · show (if pA = pD then some darwinDeactivateLines
        else if pA = pA then some darwinActivateLines
        else s.contents pA) = some darwinActivateLines
      rw [if_neg hne, if_pos rfl]
    · show (if pD = pD then some darwinDeactivateLines
        else if pD = pA then some darwinActivateLines
        else s.contents pD) = some darwinDeactivateLines
      rw [if_pos rfl]

set_option maxRecDepth 8000 in
theorem c2_env_scripts_amended_witness :
    (activate_script_dir "/e/b/p" ∈
       [activate_script_dir "/e/b/p", deactivate_script_dir "/e/b/p", "/sp/MATLAB_Runtime"]) ∧
    (deactivate_script_dir "/e/b/p" ∈
       [activate_script_dir "/e/b/p", deactivate_script_dir "/e/b/p", "/sp/MATLAB_Runtime"]) ∧
    (find_site_dir "MATLAB_Runtime"
       [activate_script_dir "/e/b/p", deactivate_script_dir "/e/b/p", "/sp/MATLAB_Runtime"]
       ["/sp"] = some "/sp/MATLAB_Runtime") ∧
    (set_environment_variables "Linux" "/e/b/p" ["/sp"]
       ⟨[], [activate_script_dir "/e/b/p", deactivate_script_dir "/e/b/p",
             "/sp/MATLAB_Runtime"], fun _ => none, fun _ => none, "/", []⟩).2.contents
      (activate_script_path "/e/b/p") = some (linuxActivateLines "/sp/MATLAB_Runtime") := by
  have main := (c2_env_scripts_amended "/e/b/p" ["/sp"]
    ⟨[], [activate_script_dir "/e/b/p", deactivate_script_dir "/e/b/p",
          "/sp/MATLAB_Runtime"], fun _ => none, fun _ => none, "/", []⟩).1
    "/sp/MATLAB_Runtime" (by simp) (by simp) (by decide)
  exact ⟨by simp, by simp, by decide, main.2.1⟩

set_option maxRecDepth 8000 in
/-- Counterexample for C2 as stated: on the supported platform `'Darwin'`
the activation script consists of exactly the two `DYLD_LIBRARY_PATH`
lines and the deactivation script of exactly two lines, and none of these
lines mentions the runtime-root variable `MATLAB_RUNTIME_DIR` at all — so
no runtime-root variable is exported, saved or unset on macOS. -/
theorem c2_counterexample :
    (set_environment_variables "Darwin" "/e/b/p" [] st0).1 = Except.ok () ∧
    (set_environment_variables "Darwin" "/e/b/p" [] st0).2.contents
        (activate_script_path "/e/b/p") = some darwinActivateLines ∧
    (set_environment_variables "Darwin" "/e/b/p" [] st0).2.contents
        (deactivate_script_path "/e/b/p") = some darwinDeactivateLines ∧
    (∀ l ∈ darwinActivateLines, strContains "MATLAB_RUNTIME_DIR" l = false) ∧
    (∀ l ∈ darwinDeactivateLines, strContains "MATLAB_RUNTIME_DIR" l = false) := by
  refine ⟨rfl, by decide, by decide, by decide, by decide⟩

/-- C4 (amended): after extraction into a fresh directory, exactly the
extracted files whose basename ends in `.sh`, or whose basename is
`install`, or whose containing-directory path contains the substring
`bin` (the walk condition `'bin' in root`, which is wider than "located
under a `bin` directory") are set to mode `0o755`; every other extracted
file keeps the mode extraction left on it, and files outside the
extraction directory keep their modes. -/
theorem c4_extract_chmod_amended (z : List (String × Nat)) (zp d : String) (s : St)
    (hnd : (z.map (fun e => pjoin d e.1)).Nodup)
    (hfresh : ∀ f ∈ s.files, underStrict d f = false) :
    (extract_matlab_runtime z zp d s).1 = Except.ok () ∧
    (∀ e ∈ z, (extract_matlab_runtime z zp d s).2.modes (pjoin d e.1) =
      some (if chmodCond (pjoin d e.1) then 493 else e.2)) ∧
    (∀ p, underStrict d p = false →
      (extract_matlab_runtime z zp d s).2.modes p = s.modes p) := by
  rw [extract_run]
  have hfl : extFiles d z s.files = s.files ++ z.map (fun e => pjoin d e.1) :=
    extFiles_fresh d z s.files
      (fun e _ hmem => by
        have hf := hfresh _ hmem
        rw [underStrict_pjoin] at hf
        exact absurd hf (by simp))
      hnd
  have hwalked : (extFiles d z s.files).filter (fun f => underStrict d f) =
      z.map (fun e => pjoin d e.1) := by
    rw [hfl, List.filter_append]
    rw [List.filter_eq_nil_iff.mpr (fun f hf => by simp [hfresh f hf])]
    rw [List.filter_eq_self.mpr (fun p hp => by
      obtain ⟨e, _, rfl⟩ := List.mem_map.mp hp
      exact underStrict_pjoin d e.1)]
    simp
  refine ⟨rfl, ?_, ?_⟩
  · intro e he
    show (if pjoin d e.1 ∈ (extFiles d z s.files).filter (fun f => underStrict d f) ∧
        chmodCond (pjoin d e.1) then some 493
      else match entryMode d z (pjoin d e.1) with
        | some m => some m
        | none => s.modes (pjoin d e.1)) =
      some (if chmodCond (pjoin d e.1) then 493 else e.2)
    by_cases hc : chmodCond (pjoin d e.1)
    · rw [if_pos ⟨by rw [hwalked]; exact List.mem_map_of_mem _ he, hc⟩, if_pos hc]
    · rw [if_neg (fun hand => hc hand.2), entryMode_mem d z e hnd he, if_neg hc]
  · intro p hup
    show (if p ∈ (extFiles d z s.files).filter (fun f => underStrict d f) ∧
        chmodCond p then some 493
      else match entryMode d z p with
        | some m => some m
        | none => s.modes p) = s.modes p
    have hpm : p ∉ z.map (fun e => pjoin d e.1) := by
      intro hpm
      obtain ⟨e, _, rfl⟩ := List.mem_map.mp hpm
      rw [underStrict_pjoin] at hup
      exact absurd hup (by simp)
    rw [if_neg (fun hand => hpm (hwalked ▸ hand.1)), entryMode_none d z p hpm]

/-- Witness for C4 (amended): a three-member archive extracted into
`/opt/rt` leaves `doc.txt` at its extracted mode while `a.sh` becomes
executable. -/
theorem c4_extract_chmod_amended_witness :
    (([("a.sh", 420), ("cabinet/data.txt", 416), ("doc.txt", 384)].map
       (fun e => pjoin "/opt/rt" e.1)).Nodup) ∧
    (extract_matlab_runtime [("a.sh", 420), ("cabinet/data.txt", 416), ("doc.txt", 384)]
        "/z.zip" "/opt/rt" st0).2.modes (pjoin "/opt/rt" "a.sh") =
      some (if chmodCond (pjoin "/opt/rt" "a.sh") then 493 else 420) ∧
    (extract_matlab_runtime [("a.sh", 420), ("cabinet/data.txt", 416), ("doc.txt", 384)]
        "/z.zip" "/opt/rt" st0).2.modes (pjoin "/opt/rt" "doc.txt") =
      some (if chmodCond (pjoin "/opt/rt" "doc.txt") then 493 else 384) := by
  have main := c4_extract_chmod_amended
    [("a.sh", 420), ("cabinet/data.txt", 416), ("doc.txt", 384)] "/z.zip" "/opt/rt" st0
    (by decide) (fun f hf => absurd hf (List.not_mem_nil f))
  exact ⟨by decide, main.2.1 ("a.sh", 420) (by decide),
    main.2.1 ("doc.txt", 384) (by decide)⟩

/-- Counterexample for C4 as stated: the extracted file
`cabinet/data.txt` has no `bin` path component, does not end in `.sh` and
is not named `install`, yet extraction changes its mode from `0o644` to
`0o755`, because the code tests `'bin' in root` as a substring of the
directory path and `"cabinet"` contains `bin`. -/
theorem c4_counterexample :
    (extract_matlab_runtime [("cabinet/data.txt", 420)] "/z.zip" "/opt/runtime" st0).2.modes
        "/opt/runtime/cabinet/data.txt" = some 493 ∧
    strEndsWith (basename "/opt/runtime/cabinet/data.txt") ".sh" = false ∧
    basename "/opt/runtime/cabinet/data.txt" ≠ "install" ∧
    "bin" ∉ pathComponents "/opt/runtime/cabinet/data.txt" := by
  refine ⟨by decide, by decide, by decide, by decide⟩

theorem download_file_run_exists (ora : List String → Bool) (url save : String) (s : St)
    (h : save ∈ s.files ∨ save ∈ s.dirs) :
    download_file ora url save s = (Except.ok (), s) := by
  simp [download_file, pathExists, M_bind_eval, M_pure_eval, h]

theorem download_file_run_missing (ora : List String → Bool) (url save : String) (s : St)
    (h : ¬(save ∈ s.files ∨ save ∈ s.dirs)) :
    download_file ora url save s =
      ((if ora (curlCmd save url) then Except.ok ()
        else Except.error (Err.calledProcess (curlCmd save url))),
       { s with trace := s.trace ++ [Ev.call (curlCmd save url)] }) := by
  simp [download_file, pathExists, M_bind_eval, M_pure_eval, h, check_call]

/-- C5: on Linux, when the extracted archive provides no `install` file at
the root of the runtime extraction directory (and none pre-exists there),
`install_matlab_runtime` raises `FileNotFoundError` and the only external
invocation possibly made is the initial `curl` download — in particular
the native silent installer is never invoked. -/
theorem c5_missing_install_script (ora : List String → Bool) (base : String)
    (sps : List String) (z : List (String × Nat)) (s : St) (pkg : String)
    (hfind : find_site_dir "spm_standalone" s.dirs sps = some pkg)
    (hcurl : (pjoin base "MATLAB_Runtime_R2019a_Update_9_glnxa64.zip" ∈ s.files ∨
              pjoin base "MATLAB_Runtime_R2019a_Update_9_glnxa64.zip" ∈ s.dirs) ∨
             ora (curlCmd (pjoin base "MATLAB_Runtime_R2019a_Update_9_glnxa64.zip")
               linuxRuntimeURL) = true)
    (hni : pjoin (pjoin pkg "matlab_runtime") "install" ∉ s.files)
    (hnd2 : pjoin (pjoin pkg "matlab_runtime") "install" ∉ s.dirs)
    (hz : ∀ e ∈ z, pjoin (pjoin pkg "matlab_runtime") e.1 ≠
        pjoin (pjoin pkg "matlab_runtime") "install") :
    (install_matlab_runtime ora base "Linux" sps z s).1 =
      Except.error (Err.fileNotFound
        ("The install script was not found in " ++ pjoin pkg "matlab_runtime")) ∧
    callsOf (install_matlab_runtime ora base "Linux" sps z s).2.trace =
      callsOf s.trace ++
        (if pjoin base "MATLAB_Runtime_R2019a_Update_9_glnxa64.zip" ∈ s.files ∨
            pjoin base "MATLAB_Runtime_R2019a_Update_9_glnxa64.zip" ∈ s.dirs then []
         else [curlCmd (pjoin base "MATLAB_Runtime_R2019a_Update_9_glnxa64.zip")
           linuxRuntimeURL]) := by
  have hnotin : ∀ s1 : St, s1.files = s.files → s1.dirs = s.dirs →
      ¬(pjoin (pjoin pkg "matlab_runtime") "install" ∈
          (extractedState z (pjoin base "MATLAB_Runtime_R2019a_Update_9_glnxa64.zip")
            (pjoin pkg "matlab_runtime") s1).files ∨
        pjoin (pjoin pkg "matlab_runtime") "install" ∈
          (extractedState z (pjoin base "MATLAB_Runtime_R2019a_Update_9_glnxa64.zip")
            (pjoin pkg "matlab_runtime") s1).dirs) := by
    intro s1 hf1 hd1
    rintro (hf | hd)
    · have hf' : pjoin (pjoin pkg "matlab_runtime") "install" ∈
          extFiles (pjoin pkg "matlab_runtime") z s1.files := hf
      rw [hf1] at hf'
      rcases (mem_extFiles _ _ _ _).mp hf' with h | h
      · exact hni h
      · obtain ⟨e, he, heq⟩ := List.mem_map.mp h
        exact hz e he heq
    · have hd' : pjoin (pjoin pkg "matlab_runtime") "install" ∈
          (if (pjoin pkg "matlab_runtime") ∈ s1.dirs then s1.dirs
           else s1.dirs ++ [pjoin pkg "matlab_runtime"]) := hd
      rw [hd1] at hd'
      by_cases hdm : pjoin pkg "matlab_runtime" ∈ s.dirs
      · rw [if_pos hdm] at hd'
        exact hnd2 hd'
      · rw [if_neg hdm] at hd'
        rcases List.mem_append.mp hd' with h | h
        · exact hnd2 h
        · exact pjoin_ne_left (pjoin pkg "matlab_runtime") "install" (by decide)
            (List.mem_singleton.mp h)
  unfold install_matlab_runtime
  by_cases hzip : pjoin base "MATLAB_Runtime_R2019a_Update_9_glnxa64.zip" ∈ s.files ∨
      pjoin base "MATLAB_Runtime_R2019a_Update_9_glnxa64.zip" ∈ s.dirs
  · simp only [-reduceIte, -reduceDIte, M_bind_eval, liftExcept, runtime_selection, if_true]
    rw [download_file_run_exists ora linuxRuntimeURL _ s hzip]
    simp only [-reduceIte, -reduceDIte, M_bind_eval, M_pure_eval]
    rw [get_installed_run_some sps "spm_standalone" s pkg hfind]
    simp only [-reduceIte, -reduceDIte, M_bind_eval, M_pure_eval]
    rw [extract_run]
    simp only [-reduceIte, -reduceDIte, M_bind_eval, M_pure_eval, pathExists]
    rw [decide_eq_false (hnotin s rfl rfl)]
    simp only [Bool.not_false, if_true]
    simp only [-reduceIte, -reduceDIte, M_bind_eval, raiseM]
    refine ⟨by trivial, ?_⟩
    show callsOf (extractedState z (pjoin base "MATLAB_Runtime_R2019a_Update_9_glnxa64.zip")
        (pjoin pkg "matlab_runtime") s).trace = _
    rw [if_pos hzip]
    show callsOf (s.trace ++ [Ev.mkdirEv (pjoin pkg "matlab_runtime"),
        Ev.extractallEv (pjoin base "MATLAB_Runtime_R2019a_Update_9_glnxa64.zip")
          (pjoin pkg "matlab_runtime")] ++
      (((extFiles (pjoin pkg "matlab_runtime") z s.files).filter
          (fun f => underStrict (pjoin pkg "matlab_runtime") f)).filter
        chmodCond).map (fun f => Ev.chmodEv f 493)) = callsOf s.trace ++ []
    rw [callsOf_append, callsOf_append, callsOf_map_chmod]
    simp [callsOf]
  · rcases hcurl with hcurl | hcurlT
    · exact absurd hcurl hzip
    simp only [-reduceIte, -reduceDIte, M_bind_eval, liftExcept, runtime_selection, if_true]
    rw [download_file_run_missing ora linuxRuntimeURL _ s hzip]
    rw [if_pos hcurlT]
    simp only [-reduceIte, -reduceDIte, M_bind_eval, M_pure_eval]
    rw [get_installed_run_some sps "spm_standalone"
      { s with trace := s.trace ++ [Ev.call (curlCmd
          (pjoin base "MATLAB_Runtime_R2019a_Update_9_glnxa64.zip") linuxRuntimeURL)] }
      pkg hfind]
    simp only [-reduceIte, -reduceDIte, M_bind_eval, M_pure_eval]
    rw [extract_run]
    simp only [-reduceIte, -reduceDIte, M_bind_eval, M_pure_eval, pathExists]
    rw [decide_eq_false (hnotin
      { s with trace := s.trace ++ [Ev.call (curlCmd
          (pjoin base "MATLAB_Runtime_R2019a_Update_9_glnxa64.zip") linuxRuntimeURL)] }
      rfl rfl)]
    simp only [Bool.not_false, if_true]
    simp only [-reduceIte, -reduceDIte, M_bind_eval, raiseM]
    refine ⟨by trivial, ?_⟩
    rw [if_neg hzip]
    show callsOf ((s.trace ++ [Ev.call (curlCmd
        (pjoin base "MATLAB_Runtime_R2019a_Update_9_glnxa64.zip") linuxRuntimeURL)]) ++
        [Ev.mkdirEv (pjoin pkg "matlab_runtime"),
         Ev.extractallEv (pjoin base "MATLAB_Runtime_R2019a_Update_9_glnxa64.zip")
           (pjoin pkg "matlab_runtime")] ++
      (((extFiles (pjoin pkg "matlab_runtime") z (s.files)).filter
          (fun f => underStrict (pjoin pkg "matlab_runtime") f)).filter
        chmodCond).map (fun f => Ev.chmodEv f 493)) =
      callsOf s.trace ++ [curlCmd (pjoin base "MATLAB_Runtime_R2019a_Update_9_glnxa64.zip")
        linuxRuntimeURL]
    rw [callsOf_append, callsOf_append, callsOf_append, callsOf_map_chmod]
    simp [callsOf]

set_option maxRecDepth 8000 in
theorem c5_missing_install_script_witness :
    (find_site_dir "spm_standalone" ["/sp/spm_standalone"] ["/sp"] =
      some "/sp/spm_standalone") ∧
    (install_matlab_runtime oraT "/b" "Linux" ["/sp"] [("readme.txt", 420)]
        ⟨[], ["/sp/spm_standalone"], fun _ => none, fun _ => none, "/", []⟩).1 =
      Except.error (Err.fileNotFound
        ("The install script was not found in " ++ pjoin "/sp/spm_standalone" "matlab_runtime")) :=
  ⟨by decide,
   (c5_missing_install_script oraT "/b" ["/sp"] [("readme.txt", 420)]
      ⟨[], ["/sp/spm_standalone"], fun _ => none, fun _ => none, "/", []⟩
      "/sp/spm_standalone" (by decide) (Or.inr rfl) (by decide) (by decide)
      (by decide)).1⟩


theorem runtime_selection_darwin (b : String) :
    runtime_selection b "Darwin" =
      Except.ok (pjoin b "MATLAB_Runtime_R2019a_Update_9_maci64.dmg.zip", macRuntimeURL) := by
  simp [runtime_selection]

theorem darwin_try_body_trace (ora : List String → Bool) (base : String) (s : St) :
    ∃ t, (darwin_try_body ora base s).2.trace = s.trace ++ t := by
  unfold darwin_try_body
  by_cases ha : ora (attachCmd (pjoin base "MATLAB_Runtime_R2019a_Update_9_maci64.dmg"))
  · by_cases hm : mountPoint ∈ s.files ∨ mountPoint ∈ s.dirs
    · by_cases hi :
        pjoin mountPoint "InstallForMacOSX.app/Contents/MacOS/InstallForMacOSX" ∈ s.files ∨
        pjoin mountPoint "InstallForMacOSX.app/Contents/MacOS/InstallForMacOSX" ∈ s.dirs
      · refine ⟨[Ev.call (attachCmd (pjoin base "MATLAB_Runtime_R2019a_Update_9_maci64.dmg")),
          Ev.call (sudoInstallCmd
            (pjoin mountPoint "InstallForMacOSX.app/Contents/MacOS/InstallForMacOSX"))], ?_⟩
        simp [-reduceIte, -reduceDIte, M_bind_eval, M_pure_eval, check_call, pathExists,
          raiseM, ha, hm, hi, List.append_assoc]
      · refine ⟨[Ev.call (attachCmd (pjoin base "MATLAB_Runtime_R2019a_Update_9_maci64.dmg"))], ?_⟩
        simp [-reduceIte, -reduceDIte, M_bind_eval, M_pure_eval, check_call, pathExists,
          raiseM, ha, hm, hi, List.append_assoc]
    · refine ⟨[Ev.call (attachCmd (pjoin base "MATLAB_Runtime_R2019a_Update_9_maci64.dmg"))], ?_⟩
      simp [-reduceIte, -reduceDIte, M_bind_eval, M_pure_eval, check_call, pathExists,
        raiseM, ha, hm, List.append_assoc]
  · refine ⟨[Ev.call (attachCmd (pjoin base "MATLAB_Runtime_R2019a_Update_9_maci64.dmg"))], ?_⟩
    simp [-reduceIte, -reduceDIte, M_bind_eval, M_pure_eval, check_call, raiseM, ha]

/-- C9: on macOS, whenever the disk-image attach step succeeds (and the
run reaches it), the `hdiutil detach` of the mount point is invoked and is
the last external event before `install_matlab_runtime` returns or
propagates an exception — also when the mount-point check, the
installer-binary lookup, or the installer invocation itself fails. -/
theorem c9_darwin_detach_always (ora : List String → Bool) (base : String)
    (sps : List String) (z : List (String × Nat)) (s : St)
    (hcurl : (pjoin base "MATLAB_Runtime_R2019a_Update_9_maci64.dmg.zip" ∈ s.files ∨
              pjoin base "MATLAB_Runtime_R2019a_Update_9_maci64.dmg.zip" ∈ s.dirs) ∨
             ora (curlCmd (pjoin base "MATLAB_Runtime_R2019a_Update_9_maci64.dmg.zip")
               macRuntimeURL) = true)
    (hunzip : ora (unzipCmd (pjoin base "MATLAB_Runtime_R2019a_Update_9_maci64.dmg.zip")
      base) = true)
    (hattach : ora (attachCmd (pjoin base "MATLAB_Runtime_R2019a_Update_9_maci64.dmg")) = true) :
    ∃ t, (install_matlab_runtime ora base "Darwin" sps z s).2.trace =
      s.trace ++ t ++ [Ev.call detachCmd] := by
  unfold install_matlab_runtime
  by_cases hzip : pjoin base "MATLAB_Runtime_R2019a_Update_9_maci64.dmg.zip" ∈ s.files ∨
      pjoin base "MATLAB_Runtime_R2019a_Update_9_maci64.dmg.zip" ∈ s.dirs
  · simp only [-reduceIte, -reduceDIte, M_bind_eval, liftExcept, runtime_selection_darwin]
    simp only [if_true]
    rw [download_file_run_exists ora macRuntimeURL _ s hzip]
    simp only [-reduceIte, -reduceDIte, M_bind_eval, M_pure_eval, check_call,
      if_pos hunzip, if_true, if_false,
      if_neg (show ¬(("Darwin" : String) = "Linux") by decide)]
    rw [tryFinally_check]
    obtain ⟨t, ht⟩ := darwin_try_body_trace ora base
      { s with trace := s.trace ++ [Ev.call (unzipCmd
          (pjoin base "MATLAB_Runtime_R2019a_Update_9_maci64.dmg.zip") base)] }
    refine ⟨[Ev.call (unzipCmd (pjoin base "MATLAB_Runtime_R2019a_Update_9_maci64.dmg.zip")
        base)] ++ t, ?_⟩
    show (darwin_try_body ora base _).2.trace ++ [Ev.call detachCmd] = _
    rw [ht]
    simp [List.append_assoc]
  · rcases hcurl with hcurl | hcurlT
    · exact absurd hcurl hzip
    simp only [-reduceIte, -reduceDIte, M_bind_eval, liftExcept, runtime_selection_darwin]
    simp only [if_true]
    rw [download_file_run_missing ora macRuntimeURL _ s hzip]
    rw [if_pos hcurlT]
    simp only [-reduceIte, -reduceDIte, M_bind_eval, M_pure_eval, check_call,
      if_pos hunzip, if_true, if_false,
      if_neg (show ¬(("Darwin" : String) = "Linux") by decide)]
    rw [tryFinally_check]
    obtain ⟨t, ht⟩ := darwin_try_body_trace ora base
      { s with trace := s.trace ++ [Ev.call (curlCmd
          (pjoin base "MATLAB_Runtime_R2019a_Update_9_maci64.dmg.zip") macRuntimeURL)] ++
          [Ev.call (unzipCmd (pjoin base "MATLAB_Runtime_R2019a_Update_9_maci64.dmg.zip")
            base)] }
    refine ⟨[Ev.call (curlCmd (pjoin base "MATLAB_Runtime_R2019a_Update_9_maci64.dmg.zip")
        macRuntimeURL),
      Ev.call (unzipCmd (pjoin base "MATLAB_Runtime_R2019a_Update_9_maci64.dmg.zip") base)]
        ++ t, ?_⟩
    show (darwin_try_body ora base _).2.trace ++ [Ev.call detachCmd] = _
    rw [ht]
    simp [List.append_assoc]

theorem c9_darwin_detach_always_witness :
    ∃ t, (install_matlab_runtime oraT "/b" "Darwin" [] [] st0).2.trace =
      st0.trace ++ t ++ [Ev.call detachCmd] :=
  c9_darwin_detach_always oraT "/b" [] [] st0 (Or.inr rfl) rfl rfl


theorem get_installed_run_none (sps : List String) (name : String) (s : St)
    (hfind : find_site_dir name s.dirs sps = none) :
    get_installed_package_dir sps name s =
      (Except.error (Err.fileNotFound
        ("Package " ++ name ++ " not found in site-packages directories")), s) := by
  unfold get_installed_package_dir
  rw [hfind]

theorem install_spm_calls (ora : List String → Bool) (exe base : String) (s : St) :
    ∃ cs, callsOf (install_spm ora exe base s).2.trace = callsOf s.trace ++ cs ∧
      cs.Nodup ∧
      ((install_spm ora exe base s).1 = Except.ok () → ∀ c ∈ cs, ora c = true) := by
  by_cases hm : spm_marker base ∈ s.files ∨ spm_marker base ∈ s.dirs
  · rw [install_spm_run_marker ora exe base s hm]
    by_cases hs : ora (setupCmd exe)
    · rw [if_pos hs]
      refine ⟨[setupCmd exe], ?_, by simp, ?_⟩
      · rw [callsOf_append]
        simp [callsOf]
      · intro _ c hc
        rw [List.mem_singleton.mp hc]
        exact hs
    · rw [if_neg hs]
      refine ⟨[setupCmd exe], ?_, by simp, ?_⟩
      · rw [callsOf_append]
        simp [callsOf]
      · intro h
        exact absurd h (by simp)
  · rw [install_spm_run_noMarker ora exe base s hm]
    by_cases hb : ora byspCmd
    · by_cases hs : ora (setupCmd exe)
      · rw [if_pos hb, if_pos hs]
        refine ⟨[byspCmd, setupCmd exe], ?_, ?_, ?_⟩
        · rw [callsOf_append, callsOf_append, callsOf_append, callsOf_map_remove]
          simp [callsOf]
        · simp [byspCmd, setupCmd]
        · intro _ c hc
          rcases List.mem_cons.mp hc with h | h
          · rw [h]; exact hb
          · rw [List.mem_singleton.mp h]; exact hs
      · rw [if_pos hb, if_neg hs]
        refine ⟨[byspCmd, setupCmd exe], ?_, ?_, ?_⟩
        · rw [callsOf_append, callsOf_append, callsOf_append, callsOf_map_remove]
          simp [callsOf]
        · simp [byspCmd, setupCmd]
        · intro h
          exact absurd h (by simp)
    · rw [if_neg hb]
      refine ⟨[byspCmd], ?_, by simp, ?_⟩
      · rw [callsOf_append]
        simp [callsOf]
      · intro h
        exact absurd h (by simp)

theorem download_file_calls (ora : List String → Bool) (url save : String) (s : St) :
    ∃ cs, callsOf (download_file ora url save s).2.trace = callsOf s.trace ++ cs ∧
      cs.Nodup ∧
      ((download_file ora url save s).1 = Except.ok () → ∀ c ∈ cs, ora c = true) := by
  by_cases hzip : save ∈ s.files ∨ save ∈ s.dirs
  · rw [download_file_run_exists ora url save s hzip]
    exact ⟨[], by simp, by simp, by simp⟩
  · rw [download_file_run_missing ora url save s hzip]
    refine ⟨[curlCmd save url], ?_, by simp, ?_⟩
    · rw [callsOf_append]
      simp [callsOf]
    · intro h c hc
      rw [List.mem_singleton.mp hc]
      by_cases hcu : ora (curlCmd save url)
      · exact hcu
      · rw [if_neg hcu] at h
        exact absurd h (by simp)

theorem darwin_try_body_cases (ora : List String → Bool) (base : String) (s : St) :
    ((darwin_try_body ora base s).2.trace = s.trace ++
        [Ev.call (attachCmd (pjoin base "MATLAB_Runtime_R2019a_Update_9_maci64.dmg"))] ∧
      (darwin_try_body ora base s).1 ≠ Except.ok ()) ∨
    ((darwin_try_body ora base s).2.trace = s.trace ++
        [Ev.call (attachCmd (pjoin base "MATLAB_Runtime_R2019a_Update_9_maci64.dmg")),
         Ev.call (sudoInstallCmd
           (pjoin mountPoint "InstallForMacOSX.app/Contents/MacOS/InstallForMacOSX"))] ∧
      ora (attachCmd (pjoin base "MATLAB_Runtime_R2019a_Update_9_maci64.dmg")) = true ∧
      ((darwin_try_body ora base s).1 = Except.ok () →
        ora (sudoInstallCmd
          (pjoin mountPoint "InstallForMacOSX.app/Contents/MacOS/InstallForMacOSX")) = true)) := by
  unfold darwin_try_body
  by_cases ha : ora (attachCmd (pjoin base "MATLAB_Runtime_R2019a_Update_9_maci64.dmg"))
  · by_cases hm : mountPoint ∈ s.files ∨ mountPoint ∈ s.dirs
    · by_cases hi :
        pjoin mountPoint "InstallForMacOSX.app/Contents/MacOS/InstallForMacOSX" ∈ s.files ∨
        pjoin mountPoint "InstallForMacOSX.app/Contents/MacOS/InstallForMacOSX" ∈ s.dirs
      · refine Or.inr ⟨?_, ha, ?_⟩
        · simp [-reduceIte, -reduceDIte, M_bind_eval, M_pure_eval, check_call, pathExists,
            raiseM, ha, hm, hi, List.append_assoc]
        · by_cases hsu : ora (sudoInstallCmd
            (pjoin mountPoint "InstallForMacOSX.app/Contents/MacOS/InstallForMacOSX"))
          · exact fun _ => hsu
          · intro h
            exfalso
            revert h
            simp [-reduceIte, -reduceDIte, M_bind_eval, M_pure_eval, check_call, pathExists,
              raiseM, ha, hm, hi, hsu]
      · refine Or.inl ⟨?_, ?_⟩
        · simp [-reduceIte, -reduceDIte, M_bind_eval, M_pure_eval, check_call, pathExists,
            raiseM, ha, hm, hi, List.append_assoc]
        · intro h
          revert h
          simp [-reduceIte, -reduceDIte, M_bind_eval, M_pure_eval, check_call, pathExists,
            raiseM, ha, hm, hi]
    · refine Or.inl ⟨?_, ?_⟩
      · simp [-reduceIte, -reduceDIte, M_bind_eval, M_pure_eval, check_call, pathExists,
          raiseM, ha, hm, List.append_assoc]
      · intro h
        revert h
        simp [-reduceIte, -reduceDIte, M_bind_eval, M_pure_eval, check_call, pathExists,
          raiseM, ha, hm]
  · refine Or.inl ⟨?_, ?_⟩
    · simp [-reduceIte, -reduceDIte, M_bind_eval, M_pure_eval, check_call, raiseM, ha]
    · intro h
      revert h
      simp [-reduceIte, -reduceDIte, M_bind_eval, M_pure_eval, check_call, raiseM, ha]

theorem extractedState_callsOf (z : List (String × Nat)) (zp d : String) (s : St) :
    callsOf (extractedState z zp d s).trace = callsOf s.trace := by
  show callsOf (s.trace ++ [Ev.mkdirEv d, Ev.extractallEv zp d] ++
    (((extFiles d z s.files).filter (fun f => underStrict d f)).filter chmodCond).map
      (fun f => Ev.chmodEv f 493)) = callsOf s.trace
  rw [callsOf_append, callsOf_append, callsOf_map_chmod]
  simp [callsOf]

theorem install_matlab_runtime_calls_linux (ora : List String → Bool) (base : String)
    (sps : List String) (z : List (String × Nat)) (s : St) :
    ∃ cs, callsOf (install_matlab_runtime ora base "Linux" sps z s).2.trace =
        callsOf s.trace ++ cs ∧
      cs.Nodup ∧
      ((install_matlab_runtime ora base "Linux" sps z s).1 = Except.ok () →
        ∀ c ∈ cs, ora c = true) := by
  unfold install_matlab_runtime
  simp only [-reduceIte, -reduceDIte, M_bind_eval, liftExcept, runtime_selection, if_true]
  by_cases hzip : pjoin base "MATLAB_Runtime_R2019a_Update_9_glnxa64.zip" ∈ s.files ∨
      pjoin base "MATLAB_Runtime_R2019a_Update_9_glnxa64.zip" ∈ s.dirs
  · rw [download_file_run_exists ora linuxRuntimeURL _ s hzip]
    simp only [-reduceIte, -reduceDIte, M_bind_eval, M_pure_eval]
    cases hfind : find_site_dir "spm_standalone" s.dirs sps with
    | none =>
      rw [get_installed_run_none sps "spm_standalone" s hfind]
      simp only [-reduceIte, -reduceDIte, M_bind_eval]
      refine ⟨[], by simp, by simp, ?_⟩
      intro h
      exact absurd h (by simp)
    | some pkg =>
      rw [get_installed_run_some sps "spm_standalone" s pkg hfind]
      simp only [-reduceIte, -reduceDIte, M_bind_eval, M_pure_eval]
      rw [extract_run]
      simp only [-reduceIte, -reduceDIte, M_bind_eval, M_pure_eval, pathExists]
      by_cases hex : pjoin (pjoin pkg "matlab_runtime") "install" ∈
          (extractedState z (pjoin base "MATLAB_Runtime_R2019a_Update_9_glnxa64.zip")
            (pjoin pkg "matlab_runtime") s).files ∨
          pjoin (pjoin pkg "matlab_runtime") "install" ∈
          (extractedState z (pjoin base "MATLAB_Runtime_R2019a_Update_9_glnxa64.zip")
            (pjoin pkg "matlab_runtime") s).dirs
      · rw [decide_eq_true hex]
        rw [if_neg (by simp : ¬((!true) = true))]
        simp only [-reduceIte, -reduceDIte, M_bind_eval, M_pure_eval, check_call, rmtree]
        by_cases hio : ora (linuxInstallCmd (pjoin (pjoin pkg "matlab_runtime") "install")
            (pjoin pkg "../MATLAB_Runtime"))
        · rw [if_pos hio]
          refine ⟨[linuxInstallCmd (pjoin (pjoin pkg "matlab_runtime") "install")
              (pjoin pkg "../MATLAB_Runtime")], ?_, by simp, ?_⟩
          · simp only [St.trace]
            rw [callsOf_append, callsOf_append]
            rw [extractedState_callsOf]
            simp [callsOf]
          · intro _ c hc
            rw [List.mem_singleton.mp hc]
            exact hio
        · rw [if_neg hio]
          refine ⟨[linuxInstallCmd (pjoin (pjoin pkg "matlab_runtime") "install")
              (pjoin pkg "../MATLAB_Runtime")], ?_, by simp, ?_⟩
          · simp only [St.trace]
            rw [callsOf_append]
            rw [extractedState_callsOf]
            simp [callsOf]
          · intro h
            exact absurd h (by simp)
      · rw [decide_eq_false hex]
        simp only [Bool.not_false, if_true]
        simp only [-reduceIte, -reduceDIte, M_bind_eval, raiseM]
        refine ⟨[], ?_, by simp, ?_⟩
        · rw [extractedState_callsOf]
          simp
        · intro h
          exact absurd h (by simp)
  · rcases hc2 : ora (curlCmd (pjoin base "MATLAB_Runtime_R2019a_Update_9_glnxa64.zip")
      linuxRuntimeURL) with hcf | hct
    · rw [download_file_run_missing ora linuxRuntimeURL _ s hzip]
      rw [if_neg (by simp [hc2] : ¬(ora (curlCmd
        (pjoin base "MATLAB_Runtime_R2019a_Update_9_glnxa64.zip") linuxRuntimeURL) = true))]
      simp only [-reduceIte, -reduceDIte, M_bind_eval]
      refine ⟨[curlCmd (pjoin base "MATLAB_Runtime_R2019a_Update_9_glnxa64.zip")
          linuxRuntimeURL], ?_, by simp, ?_⟩
      · rw [callsOf_append]
        simp [callsOf]
      · intro h
        exact absurd h (by simp)
    · rw [download_file_run_missing ora linuxRuntimeURL _ s hzip]
      rw [if_pos hc2]
      simp only [-reduceIte, -reduceDIte, M_bind_eval, M_pure_eval]
      cases hfind : find_site_dir "spm_standalone" s.dirs sps with
      | none =>
        rw [get_installed_run_none sps "spm_standalone"
          { s with trace := s.trace ++ [Ev.call (curlCmd
              (pjoin base "MATLAB_Runtime_R2019a_Update_9_glnxa64.zip") linuxRuntimeURL)] }
          hfind]
        simp only [-reduceIte, -reduceDIte, M_bind_eval]
        refine ⟨[curlCmd (pjoin base "MATLAB_Runtime_R2019a_Update_9_glnxa64.zip")
            linuxRuntimeURL], ?_, by simp, ?_⟩
        · rw [callsOf_append]
          simp [callsOf]
        · intro h
          exact absurd h (by simp)
      | some pkg =>
        rw [get_installed_run_some sps "spm_standalone"
          { s with trace := s.trace ++ [Ev.call (curlCmd
              (pjoin base "MATLAB_Runtime_R2019a_Update_9_glnxa64.zip") linuxRuntimeURL)] }
          pkg hfind]
        simp only [-reduceIte, -reduceDIte, M_bind_eval, M_pure_eval]
        rw [extract_run]
        simp only [-reduceIte, -reduceDIte, M_bind_eval, M_pure_eval, pathExists]
        by_cases hex : pjoin (pjoin pkg "matlab_runtime") "install" ∈
            (extractedState z (pjoin base "MATLAB_Runtime_R2019a_Update_9_glnxa64.zip")
              (pjoin pkg "matlab_runtime")
              { s with trace := s.trace ++ [Ev.call (curlCmd
                  (pjoin base "MATLAB_Runtime_R2019a_Update_9_glnxa64.zip")
                  linuxRuntimeURL)] }).files ∨
            pjoin (pjoin pkg "matlab_runtime") "install" ∈
            (extractedState z (pjoin base "MATLAB_Runtime_R2019a_Update_9_glnxa64.zip")
              (pjoin pkg "matlab_runtime")
              { s with trace := s.trace ++ [Ev.call (curlCmd
                  (pjoin base "MATLAB_Runtime_R2019a_Update_9_glnxa64.zip")
                  linuxRuntimeURL)] }).dirs
        · rw [decide_eq_true hex]
          rw [if_neg (by simp : ¬((!true) = true))]
          simp only [-reduceIte, -reduceDIte, M_bind_eval, M_pure_eval, check_call, rmtree]
          by_cases hio : ora (linuxInstallCmd (pjoin (pjoin pkg "matlab_runtime") "install")
              (pjoin pkg "../MATLAB_Runtime"))
          · rw [if_pos hio]
            refine ⟨[curlCmd (pjoin base "MATLAB_Runtime_R2019a_Update_9_glnxa64.zip")
                linuxRuntimeURL,
                linuxInstallCmd (pjoin (pjoin pkg "matlab_runtime") "install")
                  (pjoin pkg "../MATLAB_Runtime")], ?_, ?_, ?_⟩
            · simp only [St.trace]
              rw [callsOf_append, callsOf_append, extractedState_callsOf]
              show callsOf (s.trace ++ [Ev.call (curlCmd
                  (pjoin base "MATLAB_Runtime_R2019a_Update_9_glnxa64.zip")
                  linuxRuntimeURL)]) ++ _ ++ _ = _
              rw [callsOf_append]
              simp [callsOf]
            · simp [curlCmd, linuxInstallCmd]
            · intro _ c hc
              rcases List.mem_cons.mp hc with h | h
              · rw [h]; exact hc2
              · rw [List.mem_singleton.mp h]; exact hio
          · rw [if_neg hio]
            refine ⟨[curlCmd (pjoin base "MATLAB_Runtime_R2019a_Update_9_glnxa64.zip")
                linuxRuntimeURL,
                linuxInstallCmd (pjoin (pjoin pkg "matlab_runtime") "install")
                  (pjoin pkg "../MATLAB_Runtime")], ?_, ?_, ?_⟩
            · simp only [St.trace]
              rw [callsOf_append, extractedState_callsOf]
              show callsOf (s.trace ++ [Ev.call (curlCmd
                  (pjoin base "MATLAB_Runtime_R2019a_Update_9_glnxa64.zip")
                  linuxRuntimeURL)]) ++ _ = _
              rw [callsOf_append]
              simp [callsOf]
            · simp [curlCmd, linuxInstallCmd]
            · intro h
              exact absurd h (by simp)
        · rw [decide_eq_false hex]
          simp only [Bool.not_false, if_true]
          simp only [-reduceIte, -reduceDIte, M_bind_eval, raiseM]
          refine ⟨[curlCmd (pjoin base "MATLAB_Runtime_R2019a_Update_9_glnxa64.zip")
              linuxRuntimeURL], ?_, by simp, ?_⟩
          · rw [extractedState_callsOf]
            show callsOf (s.trace ++ [Ev.call (curlCmd
                (pjoin base "MATLAB_Runtime_R2019a_Update_9_glnxa64.zip")
                linuxRuntimeURL)]) = _
            rw [callsOf_append]
            simp [callsOf]
          · intro h
            exact absurd h (by simp)

theorem install_matlab_runtime_calls_darwin (ora : List String → Bool) (base : String)
    (sps : List String) (z : List (String × Nat)) (s : St) :
    ∃ cs, callsOf (install_matlab_runtime ora base "Darwin" sps z s).2.trace =
        callsOf s.trace ++ cs ∧
      cs.Nodup ∧
      ((install_matlab_runtime ora base "Darwin" sps z s).1 = Except.ok () →
        ∀ c ∈ cs, ora c = true) := by
  unfold install_matlab_runtime
  by_cases hzip : pjoin base "MATLAB_Runtime_R2019a_Update_9_maci64.dmg.zip" ∈ s.files ∨
      pjoin base "MATLAB_Runtime_R2019a_Update_9_maci64.dmg.zip" ∈ s.dirs
  all_goals
    simp only [-reduceIte, -reduceDIte, M_bind_eval, liftExcept, runtime_selection_darwin]
    simp only [if_true]
  · rw [download_file_run_exists ora macRuntimeURL _ s hzip]
    by_cases hu : ora (unzipCmd (pjoin base "MATLAB_Runtime_R2019a_Update_9_maci64.dmg.zip")
      base)
    · simp only [-reduceIte, -reduceDIte, M_bind_eval, M_pure_eval, check_call,
        if_pos hu, if_true, if_false,
        if_neg (show ¬(("Darwin" : String) = "Linux") by decide)]
      rw [tryFinally_check]
      rcases darwin_try_body_cases ora base
        { s with trace := s.trace ++ [Ev.call (unzipCmd
            (pjoin base "MATLAB_Runtime_R2019a_Update_9_maci64.dmg.zip") base)] }
        with ⟨ht, hno⟩ | ⟨ht, hat, himp⟩
      · refine ⟨[unzipCmd (pjoin base "MATLAB_Runtime_R2019a_Update_9_maci64.dmg.zip") base,
          attachCmd (pjoin base "MATLAB_Runtime_R2019a_Update_9_maci64.dmg"),
          detachCmd], ?_, ?_, ?_⟩
        · show callsOf ((darwin_try_body ora base _).2.trace ++ [Ev.call detachCmd]) = _
          rw [callsOf_append, ht, callsOf_append, callsOf_append]
          simp [callsOf]
        · simp [unzipCmd, attachCmd, detachCmd]
        · intro h
          exfalso
          by_cases hd : ora detachCmd
          · rw [if_pos hd] at h
            exact hno h
          · rw [if_neg hd] at h
            exact absurd h (by simp)
      · refine ⟨[unzipCmd (pjoin base "MATLAB_Runtime_R2019a_Update_9_maci64.dmg.zip") base,
          attachCmd (pjoin base "MATLAB_Runtime_R2019a_Update_9_maci64.dmg"),
          sudoInstallCmd (pjoin mountPoint "InstallForMacOSX.app/Contents/MacOS/InstallForMacOSX"),
          detachCmd], ?_, ?_, ?_⟩
        · show callsOf ((darwin_try_body ora base _).2.trace ++ [Ev.call detachCmd]) = _
          rw [callsOf_append, ht, callsOf_append, callsOf_append]
          simp [callsOf]
        · simp [unzipCmd, attachCmd, sudoInstallCmd, detachCmd, mountPoint]
        · intro h c hc
          by_cases hd : ora detachCmd
          · rw [if_pos hd] at h
            have hsudo := himp h
            simp only [List.mem_cons, List.not_mem_nil, or_false] at hc
            rcases hc with rfl | rfl | rfl | rfl
            · exact hu
            · exact hat
            · exact hsudo
            · exact hd
          · rw [if_neg hd] at h
            exact absurd h (by simp)
    · simp only [-reduceIte, -reduceDIte, M_bind_eval, M_pure_eval, check_call,
        if_neg hu, if_true, if_false,
        if_neg (show ¬(("Darwin" : String) = "Linux") by decide)]
      refine ⟨[unzipCmd (pjoin base "MATLAB_Runtime_R2019a_Update_9_maci64.dmg.zip") base],
        ?_, by simp, ?_⟩
      · rw [callsOf_append]
        simp [callsOf]
      · intro h
        exact absurd h (by simp)
  · rcases hc2 : ora (curlCmd (pjoin base "MATLAB_Runtime_R2019a_Update_9_maci64.dmg.zip")
      macRuntimeURL) with hcf | hct
    · rw [download_file_run_missing ora macRuntimeURL _ s hzip]
      rw [if_neg (by simp [hc2] : ¬(ora (curlCmd
        (pjoin base "MATLAB_Runtime_R2019a_Update_9_maci64.dmg.zip") macRuntimeURL) = true))]
      simp only [-reduceIte, -reduceDIte, M_bind_eval]
      refine ⟨[curlCmd (pjoin base "MATLAB_Runtime_R2019a_Update_9_maci64.dmg.zip")
          macRuntimeURL], ?_, by simp, ?_⟩
      · rw [callsOf_append]
        simp [callsOf]
      · intro h
        exact absurd h (by simp)
    · rw [download_file_run_missing ora macRuntimeURL _ s hzip]
      rw [if_pos hc2]
      by_cases hu : ora (unzipCmd (pjoin base "MATLAB_Runtime_R2019a_Update_9_maci64.dmg.zip")
        base)
      · simp only [-reduceIte, -reduceDIte, M_bind_eval, M_pure_eval, check_call,
          if_pos hu, if_true, if_false,
          if_neg (show ¬(("Darwin" : String) = "Linux") by decide)]
        rw [tryFinally_check]
        rcases darwin_try_body_cases ora base
          { s with trace := s.trace ++ [Ev.call (curlCmd
              (pjoin base "MATLAB_Runtime_R2019a_Update_9_maci64.dmg.zip") macRuntimeURL)] ++
              [Ev.call (unzipCmd (pjoin base "MATLAB_Runtime_R2019a_Update_9_maci64.dmg.zip")
                base)] }
          with ⟨ht, hno⟩ | ⟨ht, hat, himp⟩
        · refine ⟨[curlCmd (pjoin base "MATLAB_Runtime_R2019a_Update_9_maci64.dmg.zip")
            macRuntimeURL,
            unzipCmd (pjoin base "MATLAB_Runtime_R2019a_Update_9_maci64.dmg.zip") base,
            attachCmd (pjoin base "MATLAB_Runtime_R2019a_Update_9_maci64.dmg"),
            detachCmd], ?_, ?_, ?_⟩
          · show callsOf ((darwin_try_body ora base _).2.trace ++ [Ev.call detachCmd]) = _
            rw [callsOf_append, ht, callsOf_append, callsOf_append, callsOf_append]
            simp [callsOf]
          · simp [curlCmd, unzipCmd, attachCmd, detachCmd]
          · intro h
            exfalso
            by_cases hd : ora detachCmd
            · rw [if_pos hd] at h
              exact hno h
            · rw [if_neg hd] at h
              exact absurd h (by simp)
        · refine ⟨[curlCmd (pjoin base "MATLAB_Runtime_R2019a_Update_9_maci64.dmg.zip")
            macRuntimeURL,
            unzipCmd (pjoin base "MATLAB_Runtime_R2019a_Update_9_maci64.dmg.zip") base,
            attachCmd (pjoin base "MATLAB_Runtime_R2019a_Update_9_maci64.dmg"),
            sudoInstallCmd
              (pjoin mountPoint "InstallForMacOSX.app/Contents/MacOS/InstallForMacOSX"),
            detachCmd], ?_, ?_, ?_⟩
          · show callsOf ((darwin_try_body ora base _).2.trace ++ [Ev.call detachCmd]) = _
            rw [callsOf_append, ht, callsOf_append, callsOf_append, callsOf_append]
            simp [callsOf]
          · simp [curlCmd, unzipCmd, attachCmd, sudoInstallCmd, detachCmd, mountPoint]
          · intro h c hc
            by_cases hd : ora detachCmd
            · rw [if_pos hd] at h
              have hsudo := himp h
              simp only [List.mem_cons, List.not_mem_nil, or_false] at hc
              rcases hc with rfl | rfl | rfl | rfl | rfl
              · exact hc2
              · exact hu
              · exact hat
              · exact hsudo
              · exact hd
            · rw [if_neg hd] at h
              exact absurd h (by simp)
      · simp only [-reduceIte, -reduceDIte, M_bind_eval, M_pure_eval, check_call,
          if_neg hu, if_true, if_false,
          if_neg (show ¬(("Darwin" : String) = "Linux") by decide)]
        refine ⟨[curlCmd (pjoin base "MATLAB_Runtime_R2019a_Update_9_maci64.dmg.zip")
            macRuntimeURL,
          unzipCmd (pjoin base "MATLAB_Runtime_R2019a_Update_9_maci64.dmg.zip") base],
          ?_, ?_, ?_⟩
        · rw [callsOf_append, callsOf_append]
          simp [callsOf]
        · simp [curlCmd, unzipCmd]
        · intro h
          exact absurd h (by simp)

/-- C8: every external-process invocation made by `install_spm`,
`download_file` and `install_matlab_runtime` is made at most once per run
— the list of newly recorded commands of any run has no duplicates, hence
no retry — and whenever the run returns successfully every invoked command
had a zero exit status, so any non-zero exit raised an exception that
propagated and aborted the run. -/
theorem c8_calls_once_and_fatal (ora : List String → Bool) :
    (∀ exe base s, ∃ cs,
       callsOf (install_spm ora exe base s).2.trace = callsOf s.trace ++ cs ∧
       cs.Nodup ∧
       ((install_spm ora exe base s).1 = Except.ok () → ∀ c ∈ cs, ora c = true)) ∧
    (∀ url save s, ∃ cs,
       callsOf (download_file ora url save s).2.trace = callsOf s.trace ++ cs ∧
       cs.Nodup ∧
       ((download_file ora url save s).1 = Except.ok () → ∀ c ∈ cs, ora c = true)) ∧
    (∀ base system sps z s, ∃ cs,
       callsOf (install_matlab_runtime ora base system sps z s).2.trace =
         callsOf s.trace ++ cs ∧
       cs.Nodup ∧
       ((install_matlab_runtime ora base system sps z s).1 = Except.ok () →
         ∀ c ∈ cs, ora c = true)) := by
  refine ⟨fun exe base s => install_spm_calls ora exe base s,
    fun url save s => download_file_calls ora url save s, ?_⟩
  intro base system sps z s
  by_cases hL : system = "Linux"
  · subst hL
    exact install_matlab_runtime_calls_linux ora base sps z s
  · by_cases hD : system = "Darwin"
    · subst hD
      exact install_matlab_runtime_calls_darwin ora base sps z s
    · have hrun : install_matlab_runtime ora base system sps z s =
          (Except.error (Err.osError "Unsupported operating system"), s) := by
        unfold install_matlab_runtime
        simp only [M_bind_eval, liftExcept, runtime_selection, if_neg hL, if_neg hD]
      rw [hrun]
      refine ⟨[], by simp, by simp, ?_⟩
      intro h
      exact absurd h (by simp)

theorem c8_calls_once_and_fatal_witness :
    (∃ cs, callsOf (install_spm oraT "/py" "/b" st0).2.trace = callsOf st0.trace ++ cs ∧
       cs.Nodup ∧
       ((install_spm oraT "/py" "/b" st0).1 = Except.ok () → ∀ c ∈ cs, oraT c = true)) ∧
    (∃ cs, callsOf (download_file oraT "http://u" "/f" st0).2.trace =
         callsOf st0.trace ++ cs ∧
       cs.Nodup ∧
       ((download_file oraT "http://u" "/f" st0).1 = Except.ok () →
         ∀ c ∈ cs, oraT c = true)) ∧
    (∃ cs, callsOf (install_matlab_runtime oraT "/b" "Windows" [] [] st0).2.trace =
         callsOf st0.trace ++ cs ∧
       cs.Nodup ∧
       ((install_matlab_runtime oraT "/b" "Windows" [] [] st0).1 = Except.ok () →
         ∀ c ∈ cs, oraT c = true)) :=
  ⟨(c8_calls_once_and_fatal oraT).1 "/py" "/b" st0,
   (c8_calls_once_and_fatal oraT).2.1 "http://u" "/f" st0,
   (c8_calls_once_and_fatal oraT).2.2 "/b" "Windows" [] [] st0⟩

theorem darwin_try_body_run_success (ora : List String → Bool) (base : String) (s : St)
    (ha : ora (attachCmd (pjoin base "MATLAB_Runtime_R2019a_Update_9_maci64.dmg")) = true)
    (hm : mountPoint ∈ s.files ∨ mountPoint ∈ s.dirs)
    (hi : pjoin mountPoint "InstallForMacOSX.app/Contents/MacOS/InstallForMacOSX" ∈ s.files ∨
          pjoin mountPoint "InstallForMacOSX.app/Contents/MacOS/InstallForMacOSX" ∈ s.dirs) :
    darwin_try_body ora base s =
      ((if ora (sudoInstallCmd
            (pjoin mountPoint "InstallForMacOSX.app/Contents/MacOS/InstallForMacOSX")) then
          Except.ok ()
        else Except.error (Err.calledProcess (sudoInstallCmd
          (pjoin mountPoint "InstallForMacOSX.app/Contents/MacOS/InstallForMacOSX")))),
       { s with trace := s.trace ++
          [Ev.call (attachCmd (pjoin base "MATLAB_Runtime_R2019a_Update_9_maci64.dmg")),
           Ev.call (sudoInstallCmd
             (pjoin mountPoint "InstallForMacOSX.app/Contents/MacOS/InstallForMacOSX"))] }) := by
  unfold darwin_try_body
  simp [-reduceIte, -reduceDIte, M_bind_eval, M_pure_eval, check_call, pathExists,
    raiseM, ha, hm, hi, List.append_assoc]

theorem install_matlab_runtime_linux_mechanism (ora : List String → Bool) (base : String)
    (sps : List String) (z : List (String × Nat)) (s : St) (pkg : String) (m : Nat)
    (hfind : find_site_dir "spm_standalone" s.dirs sps = some pkg)
    (hcurl : (pjoin base "MATLAB_Runtime_R2019a_Update_9_glnxa64.zip" ∈ s.files ∨
              pjoin base "MATLAB_Runtime_R2019a_Update_9_glnxa64.zip" ∈ s.dirs) ∨
             ora (curlCmd (pjoin base "MATLAB_Runtime_R2019a_Update_9_glnxa64.zip")
               linuxRuntimeURL) = true)
    (hz : ("install", m) ∈ z) :
    Ev.call (linuxInstallCmd (pjoin (pjoin pkg "matlab_runtime") "install")
        (pjoin pkg "../MATLAB_Runtime")) ∈
      (install_matlab_runtime ora base "Linux" sps z s).2.trace ∧
    ∀ c, Ev.call c ∈ (install_matlab_runtime ora base "Linux" sps z s).2.trace →
      Ev.call c ∈ s.trace ∨
      c = curlCmd (pjoin base "MATLAB_Runtime_R2019a_Update_9_glnxa64.zip") linuxRuntimeURL ∨
      c = linuxInstallCmd (pjoin (pjoin pkg "matlab_runtime") "install")
        (pjoin pkg "../MATLAB_Runtime") := by
  have hexmem : ∀ s1 : St, s1.files = s.files →
      pjoin (pjoin pkg "matlab_runtime") "install" ∈
        (extractedState z (pjoin base "MATLAB_Runtime_R2019a_Update_9_glnxa64.zip")
          (pjoin pkg "matlab_runtime") s1).files ∨
      pjoin (pjoin pkg "matlab_runtime") "install" ∈
        (extractedState z (pjoin base "MATLAB_Runtime_R2019a_Update_9_glnxa64.zip")
          (pjoin pkg "matlab_runtime") s1).dirs := by
    intro s1 hf
    left
    show pjoin (pjoin pkg "matlab_runtime") "install" ∈
      extFiles (pjoin pkg "matlab_runtime") z s1.files
    exact (mem_extFiles _ _ _ _).mpr (Or.inr (List.mem_map.mpr ⟨("install", m), hz, rfl⟩))
  unfold install_matlab_runtime
  simp only [-reduceIte, -reduceDIte, M_bind_eval, liftExcept, runtime_selection, if_true]
  by_cases hzip : pjoin base "MATLAB_Runtime_R2019a_Update_9_glnxa64.zip" ∈ s.files ∨
      pjoin base "MATLAB_Runtime_R2019a_Update_9_glnxa64.zip" ∈ s.dirs
  · rw [download_file_run_exists ora linuxRuntimeURL _ s hzip]
    simp only [-reduceIte, -reduceDIte, M_bind_eval, M_pure_eval]
    rw [get_installed_run_some sps "spm_standalone" s pkg hfind]
    simp only [-reduceIte, -reduceDIte, M_bind_eval, M_pure_eval]
    rw [extract_run]
    simp only [-reduceIte, -reduceDIte, M_bind_eval, M_pure_eval, pathExists]
    rw [decide_eq_true (hexmem s rfl)]
    rw [if_neg (by simp : ¬((!true) = true))]
    simp only [-reduceIte, -reduceDIte, M_bind_eval, M_pure_eval, check_call, rmtree]
    by_cases hio : ora (linuxInstallCmd (pjoin (pjoin pkg "matlab_runtime") "install")
        (pjoin pkg "../MATLAB_Runtime"))
    · rw [if_pos hio]
      constructor
      · simp [-reduceIte, -reduceDIte]
      · intro c hc
        simp [-reduceIte, -reduceDIte, extractedState] at hc
        tauto
    · rw [if_neg hio]
      constructor
      · simp [-reduceIte, -reduceDIte]
      · intro c hc
        simp [-reduceIte, -reduceDIte, extractedState] at hc
        tauto
  · rcases hcurl with hcurl | hct
    · exact absurd hcurl hzip
    rw [download_file_run_missing ora linuxRuntimeURL _ s hzip]
    rw [if_pos hct]
    simp only [-reduceIte, -reduceDIte, M_bind_eval, M_pure_eval]
    rw [get_installed_run_some sps "spm_standalone"
      { s with trace := s.trace ++ [Ev.call (curlCmd
          (pjoin base "MATLAB_Runtime_R2019a_Update_9_glnxa64.zip") linuxRuntimeURL)] }
      pkg hfind]
    simp only [-reduceIte, -reduceDIte, M_bind_eval, M_pure_eval]
    rw [extract_run]
    simp only [-reduceIte, -reduceDIte, M_bind_eval, M_pure_eval, pathExists]
    rw [decide_eq_true (hexmem
      { s with trace := s.trace ++ [Ev.call (curlCmd
          (pjoin base "MATLAB_Runtime_R2019a_Update_9_glnxa64.zip") linuxRuntimeURL)] }
      rfl)]
    rw [if_neg (by simp : ¬((!true) = true))]
    simp only [-reduceIte, -reduceDIte, M_bind_eval, M_pure_eval, check_call, rmtree]
    by_cases hio : ora (linuxInstallCmd (pjoin (pjoin pkg "matlab_runtime") "install")
        (pjoin pkg "../MATLAB_Runtime"))
    · rw [if_pos hio]
      constructor
      · simp [-reduceIte, -reduceDIte]
      · intro c hc
        simp [-reduceIte, -reduceDIte, extractedState] at hc
        tauto
    · rw [if_neg hio]
      constructor
      · simp [-reduceIte, -reduceDIte]
      · intro c hc
        simp [-reduceIte, -reduceDIte, extractedState] at hc
        tauto

theorem install_matlab_runtime_darwin_mechanism (ora : List String → Bool) (base : String)
    (sps : List String) (z : List (String × Nat)) (s : St)
    (hcurl : (pjoin base "MATLAB_Runtime_R2019a_Update_9_maci64.dmg.zip" ∈ s.files ∨
              pjoin base "MATLAB_Runtime_R2019a_Update_9_maci64.dmg.zip" ∈ s.dirs) ∨
             ora (curlCmd (pjoin base "MATLAB_Runtime_R2019a_Update_9_maci64.dmg.zip")
               macRuntimeURL) = true)
    (hu : ora (unzipCmd (pjoin base "MATLAB_Runtime_R2019a_Update_9_maci64.dmg.zip")
      base) = true)
    (ha : ora (attachCmd (pjoin base "MATLAB_Runtime_R2019a_Update_9_maci64.dmg")) = true)
    (hm : mountPoint ∈ s.files ∨ mountPoint ∈ s.dirs)
    (hi : pjoin mountPoint "InstallForMacOSX.app/Contents/MacOS/InstallForMacOSX" ∈ s.files ∨
          pjoin mountPoint "InstallForMacOSX.app/Contents/MacOS/InstallForMacOSX" ∈ s.dirs) :
    Ev.call (attachCmd (pjoin base "MATLAB_Runtime_R2019a_Update_9_maci64.dmg")) ∈
      (install_matlab_runtime ora base "Darwin" sps z s).2.trace ∧
    Ev.call (sudoInstallCmd
        (pjoin mountPoint "InstallForMacOSX.app/Contents/MacOS/InstallForMacOSX")) ∈
      (install_matlab_runtime ora base "Darwin" sps z s).2.trace ∧
    Ev.call detachCmd ∈ (install_matlab_runtime ora base "Darwin" sps z s).2.trace ∧
    ∀ c, Ev.call c ∈ (install_matlab_runtime ora base "Darwin" sps z s).2.trace →
      Ev.call c ∈ s.trace ∨
      c = curlCmd (pjoin base "MATLAB_Runtime_R2019a_Update_9_maci64.dmg.zip") macRuntimeURL ∨
      c = unzipCmd (pjoin base "MATLAB_Runtime_R2019a_Update_9_maci64.dmg.zip") base ∨
      c = attachCmd (pjoin base "MATLAB_Runtime_R2019a_Update_9_maci64.dmg") ∨
      c = sudoInstallCmd (pjoin mountPoint "InstallForMacOSX.app/Contents/MacOS/InstallForMacOSX") ∨
      c = detachCmd := by
  unfold install_matlab_runtime
  by_cases hzip : pjoin base "MATLAB_Runtime_R2019a_Update_9_maci64.dmg.zip" ∈ s.files ∨
      pjoin base "MATLAB_Runtime_R2019a_Update_9_maci64.dmg.zip" ∈ s.dirs
  all_goals
    simp only [-reduceIte, -reduceDIte, M_bind_eval, liftExcept, runtime_selection_darwin]
    simp only [if_true]
  · rw [download_file_run_exists ora macRuntimeURL _ s hzip]
    simp only [-reduceIte, -reduceDIte, M_bind_eval, M_pure_eval, check_call,
      if_pos hu, if_true, if_false,
      if_neg (show ¬(("Darwin" : String) = "Linux") by decide)]
    rw [tryFinally_check]
    rw [darwin_try_body_run_success ora base
      { s with trace := s.trace ++ [Ev.call (unzipCmd
          (pjoin base "MATLAB_Runtime_R2019a_Update_9_maci64.dmg.zip") base)] }
      ha hm hi]
    refine ⟨by simp [-reduceIte, -reduceDIte], by simp [-reduceIte, -reduceDIte],
      by simp [-reduceIte, -reduceDIte], ?_⟩
    intro c hc
    simp [-reduceIte, -reduceDIte] at hc
    tauto
  · rcases hcurl with hcurl | hct
    · exact absurd hcurl hzip
    rw [download_file_run_missing ora macRuntimeURL _ s hzip]
    rw [if_pos hct]
    simp only [-reduceIte, -reduceDIte, M_bind_eval, M_pure_eval, check_call,
      if_pos hu, if_true, if_false,
      if_neg (show ¬(("Darwin" : String) = "Linux") by decide)]
    rw [tryFinally_check]
    rw [darwin_try_body_run_success ora base
      { s with trace := s.trace ++ [Ev.call (curlCmd
          (pjoin base "MATLAB_Runtime_R2019a_Update_9_maci64.dmg.zip") macRuntimeURL)] ++
          [Ev.call (unzipCmd (pjoin base "MATLAB_Runtime_R2019a_Update_9_maci64.dmg.zip")
            base)] }
      ha hm hi]
    refine ⟨by simp [-reduceIte, -reduceDIte], by simp [-reduceIte, -reduceDIte],
      by simp [-reduceIte, -reduceDIte], ?_⟩
    intro c hc
    simp [-reduceIte, -reduceDIte] at hc
    tauto

/-- C1: platform dispatch of `install_matlab_runtime`. On `'Linux'` the
Linux runtime archive and URL are selected and the direct install-script
mechanism is used: the script at the extraction root is invoked with the
native silent flags and every external command of a Linux run is either
that invocation or the `curl` download — never a disk-image command. On
`'Darwin'` the macOS `dmg.zip` archive and URL are selected and the
disk-image mechanism is used: the image is attached, the bundled
`InstallForMacOSX` binary is invoked via `sudo`, the image is detached,
and every external command of a Darwin run is one of `curl`, `unzip`,
attach, the bundled installer, or detach. Any other reported platform
raises `OSError "Unsupported operating system"` with the state unchanged
— before any download or filesystem mutation. -/
theorem c1_platform_dispatch :
    (∀ base_dir, runtime_selection base_dir "Linux" =
       Except.ok (pjoin base_dir "MATLAB_Runtime_R2019a_Update_9_glnxa64.zip",
         linuxRuntimeURL)) ∧
    (∀ base_dir, runtime_selection base_dir "Darwin" =
       Except.ok (pjoin base_dir "MATLAB_Runtime_R2019a_Update_9_maci64.dmg.zip",
         macRuntimeURL)) ∧
    (∀ ora base_dir system sps z s, system ≠ "Linux" → system ≠ "Darwin" →
       install_matlab_runtime ora base_dir system sps z s =
         (Except.error (Err.osError "Unsupported operating system"), s)) ∧
    (∀ ora base_dir sps z s pkg m,
       find_site_dir "spm_standalone" s.dirs sps = some pkg →
       ((pjoin base_dir "MATLAB_Runtime_R2019a_Update_9_glnxa64.zip" ∈ s.files ∨
         pjoin base_dir "MATLAB_Runtime_R2019a_Update_9_glnxa64.zip" ∈ s.dirs) ∨
        ora (curlCmd (pjoin base_dir "MATLAB_Runtime_R2019a_Update_9_glnxa64.zip")
          linuxRuntimeURL) = true) →
       ("install", m) ∈ z →
       Ev.call (linuxInstallCmd (pjoin (pjoin pkg "matlab_runtime") "install")
           (pjoin pkg "../MATLAB_Runtime")) ∈
         (install_matlab_runtime ora base_dir "Linux" sps z s).2.trace ∧
       ∀ c, Ev.call c ∈ (install_matlab_runtime ora base_dir "Linux" sps z s).2.trace →
         Ev.call c ∈ s.trace ∨
         c = curlCmd (pjoin base_dir "MATLAB_Runtime_R2019a_Update_9_glnxa64.zip")
           linuxRuntimeURL ∨
         c = linuxInstallCmd (pjoin (pjoin pkg "matlab_runtime") "install")
           (pjoin pkg "../MATLAB_Runtime")) ∧
    (∀ ora base_dir sps z s,
       ((pjoin base_dir "MATLAB_Runtime_R2019a_Update_9_maci64.dmg.zip" ∈ s.files ∨
         pjoin base_dir "MATLAB_Runtime_R2019a_Update_9_maci64.dmg.zip" ∈ s.dirs) ∨
        ora (curlCmd (pjoin base_dir "MATLAB_Runtime_R2019a_Update_9_maci64.dmg.zip")
          macRuntimeURL) = true) →
       ora (unzipCmd (pjoin base_dir "MATLAB_Runtime_R2019a_Update_9_maci64.dmg.zip")
         base_dir) = true →
       ora (attachCmd (pjoin base_dir "MATLAB_Runtime_R2019a_Update_9_maci64.dmg")) = true →
       (mountPoint ∈ s.files ∨ mountPoint ∈ s.dirs) →
       (pjoin mountPoint "InstallForMacOSX.app/Contents/MacOS/InstallForMacOSX" ∈ s.files ∨
        pjoin mountPoint "InstallForMacOSX.app/Contents/MacOS/InstallForMacOSX" ∈ s.dirs) →
       Ev.call (attachCmd (pjoin base_dir "MATLAB_Runtime_R2019a_Update_9_maci64.dmg")) ∈
         (install_matlab_runtime ora base_dir "Darwin" sps z s).2.trace ∧
       Ev.call (sudoInstallCmd
           (pjoin mountPoint "InstallForMacOSX.app/Contents/MacOS/InstallForMacOSX")) ∈
         (install_matlab_runtime ora base_dir "Darwin" sps z s).2.trace ∧
       Ev.call detachCmd ∈ (install_matlab_runtime ora base_dir "Darwin" sps z s).2.trace ∧
       ∀ c, Ev.call c ∈ (install_matlab_runtime ora base_dir "Darwin" sps z s).2.trace →
         Ev.call c ∈ s.trace ∨
         c = curlCmd (pjoin base_dir "MATLAB_Runtime_R2019a_Update_9_maci64.dmg.zip")
           macRuntimeURL ∨
         c = unzipCmd (pjoin base_dir "MATLAB_Runtime_R2019a_Update_9_maci64.dmg.zip")
           base_dir ∨
         c = attachCmd (pjoin base_dir "MATLAB_Runtime_R2019a_Update_9_maci64.dmg") ∨
         c = sudoInstallCmd
           (pjoin mountPoint "InstallForMacOSX.app/Contents/MacOS/InstallForMacOSX") ∨
         c = detachCmd) := by
  refine ⟨fun b => by simp [runtime_selection],
    fun b => by simp [runtime_selection], ?_, ?_, ?_⟩
  · intro ora base system sps z s h1 h2
    unfold install_matlab_runtime
    simp only [M_bind_eval, liftExcept, runtime_selection, if_neg h1, if_neg h2]
  · intro ora base sps z s pkg m hfind hcurl hz
    exact install_matlab_runtime_linux_mechanism ora base sps z s pkg m hfind hcurl hz
  · intro ora base sps z s hcurl hu ha hm hi
    exact install_matlab_runtime_darwin_mechanism ora base sps z s hcurl hu ha hm hi

set_option maxRecDepth 8000 in
theorem c1_platform_dispatch_witness :
    ("Windows" ≠ "Linux") ∧ ("Windows" ≠ "Darwin") ∧
    install_matlab_runtime oraT "/b" "Windows" [] [] st0 =
      (Except.error (Err.osError "Unsupported operating system"), st0) ∧
    (find_site_dir "spm_standalone" ["/sp/spm_standalone"] ["/sp"] =
      some "/sp/spm_standalone") ∧
    Ev.call (linuxInstallCmd
        (pjoin (pjoin "/sp/spm_standalone" "matlab_runtime") "install")
        (pjoin "/sp/spm_standalone" "../MATLAB_Runtime")) ∈
      (install_matlab_runtime oraT "/b" "Linux" ["/sp"] [("install", 420)]
        ⟨[], ["/sp/spm_standalone"], fun _ => none, fun _ => none, "/", []⟩).2.trace ∧
    Ev.call (attachCmd (pjoin "/b" "MATLAB_Runtime_R2019a_Update_9_maci64.dmg")) ∈
      (install_matlab_runtime oraT "/b" "Darwin" [] []
        ⟨[pjoin mountPoint "InstallForMacOSX.app/Contents/MacOS/InstallForMacOSX"],
         [mountPoint], fun _ => none, fun _ => none, "/", []⟩).2.trace ∧
    Ev.call (sudoInstallCmd
        (pjoin mountPoint "InstallForMacOSX.app/Contents/MacOS/InstallForMacOSX")) ∈
      (install_matlab_runtime oraT "/b" "Darwin" [] []
        ⟨[pjoin mountPoint "InstallForMacOSX.app/Contents/MacOS/InstallForMacOSX"],
         [mountPoint], fun _ => none, fun _ => none, "/", []⟩).2.trace ∧
    Ev.call detachCmd ∈
      (install_matlab_runtime oraT "/b" "Darwin" [] []
        ⟨[pjoin mountPoint "InstallForMacOSX.app/Contents/MacOS/InstallForMacOSX"],
         [mountPoint], fun _ => none, fun _ => none, "/", []⟩).2.trace :=
  ⟨by decide, by decide,
   c1_platform_dispatch.2.2.1 oraT "/b" "Windows" [] [] st0 (by decide) (by decide),
   by decide,
   (c1_platform_dispatch.2.2.2.1 oraT "/b" ["/sp"] [("install", 420)]
      ⟨[], ["/sp/spm_standalone"], fun _ => none, fun _ => none, "/", []⟩
      "/sp/spm_standalone" 420 (by decide) (Or.inr rfl) (by decide)).1,
   (c1_platform_dispatch.2.2.2.2 oraT "/b" [] []
      ⟨[pjoin mountPoint "InstallForMacOSX.app/Contents/MacOS/InstallForMacOSX"],
       [mountPoint], fun _ => none, fun _ => none, "/", []⟩
      (Or.inr rfl) rfl rfl (Or.inr (by decide)) (Or.inl (by decide))).1,
   (c1_platform_dispatch.2.2.2.2 oraT "/b" [] []
      ⟨[pjoin mountPoint "InstallForMacOSX.app/Contents/MacOS/InstallForMacOSX"],
       [mountPoint], fun _ => none, fun _ => none, "/", []⟩
      (Or.inr rfl) rfl rfl (Or.inr (by decide)) (Or.inl (by decide))).2.1,
   (c1_platform_dispatch.2.2.2.2 oraT "/b" [] []
      ⟨[pjoin mountPoint "InstallForMacOSX.app/Contents/MacOS/InstallForMacOSX"],
       [mountPoint], fun _ => none, fun _ => none, "/", []⟩
      (Or.inr rfl) rfl rfl (Or.inr (by decide)) (Or.inl (by decide))).2.2.1⟩

end DancSpm
